import Mathlib

/-!
Hypercall dispatch and privilege gate

A shallow embedding of `hypervisor/arch/x86/guest/vmcall.c`: the static
function `dispatch_hypercall` and the VM-exit handler `vmcall_vmexit_handler`.

The code is sequential and talks to its collaborators (guest registers, the
operation handlers, the fault injector, the spinlock, the logger and the
tracer) only through calls.  The embedding threads an explicit system state
made of an abstract world `W`, which the collaborators read and change, and a
log of the calls the code makes, in program order.  The collaborators and the
constants that come from headers (`HC_*`, `CONFIG_MAX_VM_NUM`, `EACCES`) are
parameters, gathered in `Env`.

Machine integers: `uint64_t` and `uint16_t` values are natural numbers, with
the narrowing cast `(uint16_t)x` written `x % 2 ^ 16`; the `int32_t` status is
an integer and the widening cast `(uint64_t)ret` is `to_uint64`.
-/

namespace Vmcall

/-! ## Data model -/

/-- Guest general-purpose registers of the hypercall ABI. -/
inductive CpuReg
  | CPU_REG_RAX
  | CPU_REG_RDI
  | CPU_REG_RSI
  | CPU_REG_R8
  deriving DecidableEq, Repr

/-- The part of `struct acrn_vm` this file reads: the identifier `vm->vm_id`. -/
structure acrn_vm where
  vm_id : Nat
  deriving DecidableEq, Repr

/-- The part of `struct acrn_vcpu` this file reads: the owning VM `vcpu->vm`;
`vcpu_id` tells the vCPUs of one VM apart. -/
structure acrn_vcpu where
  vcpu_id : Nat
  vm : acrn_vm
  deriving DecidableEq, Repr

/-- The `case` labels of the `switch` in `dispatch_hypercall`, in source order. -/
inductive HcCase
  | HC_SOS_OFFLINE_CPU
  | HC_GET_API_VERSION
  | HC_GET_PLATFORM_INFO
  | HC_SET_CALLBACK_VECTOR
  | HC_CREATE_VM
  | HC_DESTROY_VM
  | HC_START_VM
  | HC_RESET_VM
  | HC_PAUSE_VM
  | HC_CREATE_VCPU
  | HC_SET_VCPU_REGS
  | HC_SET_IRQLINE
  | HC_INJECT_MSI
  | HC_SET_IOREQ_BUFFER
  | HC_NOTIFY_REQUEST_FINISH
  | HC_VM_SET_MEMORY_REGIONS
  | HC_VM_WRITE_PROTECT_PAGE
  | HC_VM_PCI_MSIX_REMAP
  | HC_VM_GPA2HPA
  | HC_ASSIGN_PTDEV
  | HC_DEASSIGN_PTDEV
  | HC_SET_PTDEV_INTR_INFO
  | HC_RESET_PTDEV_INTR_INFO
  | HC_WORLD_SWITCH
  | HC_INITIALIZE_TRUSTY
  | HC_PM_GET_CPU_STATE
  | HC_SAVE_RESTORE_SWORLD_CTX
  | HC_VM_INTR_MONITOR
  deriving DecidableEq, Fintype, Repr

/-- A call of one of the operation handlers, with the arguments
`dispatch_hypercall` passes.  The handlers themselves live in other files. -/
inductive HandlerCall
  | hcall_sos_offline_cpu (vm : acrn_vm) (param1 : Nat)
  | hcall_get_api_version (vm : acrn_vm) (param1 : Nat)
  | hcall_get_platform_info (vm : acrn_vm) (param1 : Nat)
  | hcall_set_callback_vector (vm : acrn_vm) (param1 : Nat)
  | hcall_create_vm (vm : acrn_vm) (param1 : Nat)
  | hcall_destroy_vm (vm_id : Nat)
  | hcall_start_vm (vm_id : Nat)
  | hcall_reset_vm (vm_id : Nat)
  | hcall_pause_vm (vm_id : Nat)
  | hcall_create_vcpu (vm : acrn_vm) (vm_id : Nat) (param2 : Nat)
  | hcall_set_vcpu_regs (vm : acrn_vm) (vm_id : Nat) (param2 : Nat)
  | hcall_set_irqline (vm : acrn_vm) (vm_id : Nat) (ops : Nat)
  | hcall_inject_msi (vm : acrn_vm) (vm_id : Nat) (param2 : Nat)
  | hcall_set_ioreq_buffer (vm : acrn_vm) (vm_id : Nat) (param2 : Nat)
  | hcall_notify_ioreq_finish (vm_id : Nat) (vcpu_id : Nat)
  | hcall_set_vm_memory_regions (vm : acrn_vm) (param1 : Nat)
  | hcall_write_protect_page (vm : acrn_vm) (vm_id : Nat) (param2 : Nat)
  | hcall_gpa_to_hpa (vm : acrn_vm) (vm_id : Nat) (param2 : Nat)
  | hcall_assign_ptdev (vm : acrn_vm) (vm_id : Nat) (param2 : Nat)
  | hcall_deassign_ptdev (vm : acrn_vm) (vm_id : Nat) (param2 : Nat)
  | hcall_set_ptdev_intr_info (vm : acrn_vm) (vm_id : Nat) (param2 : Nat)
  | hcall_reset_ptdev_intr_info (vm : acrn_vm) (vm_id : Nat) (param2 : Nat)
  | hcall_world_switch (vcpu : acrn_vcpu)
  | hcall_initialize_trusty (vcpu : acrn_vcpu) (param1 : Nat)
  | hcall_get_cpu_pm_state (vm : acrn_vm) (param1 : Nat) (param2 : Nat)
  | hcall_save_restore_sworld_ctx (vcpu : acrn_vcpu)
  | hcall_vm_intr_monitor (vm : acrn_vm) (vm_id : Nat) (param2 : Nat)
  | hcall_debug (vm : acrn_vm) (param1 : Nat) (param2 : Nat) (hypcall_id : Nat)
  deriving DecidableEq, Repr

/-- The two `pr_err` messages of `vmcall_vmexit_handler`. -/
inductive ErrMsg
  | only_from_sos_vm (hypcall_id : Nat)
  | only_from_ring0
  deriving DecidableEq, Repr

/-- Trace event identifiers used in this file. -/
inductive TraceId
  | TRACE_VMEXIT_VMCALL
  deriving DecidableEq, Repr

/-- One call made by the code, as recorded in the log.  `spinlock_obtain` and
`spinlock_release` are those of `vmm_hypercall_lock`, the only lock here. -/
inductive Event
  | vcpu_get_gpreg (reg : CpuReg)
  | vcpu_set_gpreg (reg : CpuReg) (val : Nat)
  | vcpu_inject_ud
  | spinlock_obtain
  | spinlock_release
  | hcall (c : HandlerCall)
  | pr_err (msg : ErrMsg)
  | TRACE_2L (evt : TraceId) (e1 : Nat) (e2 : Nat)
  deriving DecidableEq, Repr

/-- The collaborators and header constants the code depends on.  `hc_id`
gives the value of each `HC_*` macro; `hcall` runs a handler on the world and
gives its `int32_t` status and the world it leaves. -/
structure Env (W : Type) where
  CONFIG_MAX_VM_NUM : Nat
  EACCES : Nat
  hc_id : HcCase → Nat
  is_sos_vm : acrn_vm → Bool
  is_hypercall_from_ring0 : W → Bool
  get_gpreg : acrn_vcpu → CpuReg → W → Nat
  set_gpreg : acrn_vcpu → CpuReg → Nat → W → W
  inject_ud : acrn_vcpu → W → W
  hcall : HandlerCall → W → Int × W

/-- System state: the world of the collaborators and the log of calls made. -/
structure Sys (W : Type) where
  world : W
  log : List Event

variable {W : Type}

/-! ## Primitive steps -/

/-- Append one event to the log. -/
def emit (e : Event) (s : Sys W) : Sys W :=
  { s with log := s.log ++ [e] }

/-- Read a guest register: `vcpu_get_gpreg(vcpu, reg)`. -/
def vcpu_get_gpreg (env : Env W) (vcpu : acrn_vcpu) (reg : CpuReg) (s : Sys W) :
    Nat × Sys W :=
  (env.get_gpreg vcpu reg s.world, emit (.vcpu_get_gpreg reg) s)

/-- Write a guest register: `vcpu_set_gpreg(vcpu, reg, val)`. -/
def vcpu_set_gpreg (env : Env W) (vcpu : acrn_vcpu) (reg : CpuReg) (val : Nat)
    (s : Sys W) : Sys W :=
  emit (.vcpu_set_gpreg reg val) { s with world := env.set_gpreg vcpu reg val s.world }

/-- Queue an invalid-opcode exception: `vcpu_inject_ud(vcpu)`. -/
def vcpu_inject_ud (env : Env W) (vcpu : acrn_vcpu) (s : Sys W) : Sys W :=
  emit .vcpu_inject_ud { s with world := env.inject_ud vcpu s.world }

/-- Take the hypercall lock: `spinlock_obtain(&vmm_hypercall_lock)`. -/
def spinlock_obtain (s : Sys W) : Sys W :=
  emit .spinlock_obtain s

/-- Drop the hypercall lock: `spinlock_release(&vmm_hypercall_lock)`. -/
def spinlock_release (s : Sys W) : Sys W :=
  emit .spinlock_release s

/-- Run a handler and give its status. -/
def hcall (env : Env W) (c : HandlerCall) (s : Sys W) : Int × Sys W :=
  ((env.hcall c s.world).1, emit (.hcall c) { s with world := (env.hcall c s.world).2 })

/-- Log an error message: `pr_err(...)`. -/
def pr_err (msg : ErrMsg) (s : Sys W) : Sys W :=
  emit (.pr_err msg) s

/-- Emit a two-word trace record: `TRACE_2L(evt, e1, e2)`. -/
def TRACE_2L (evt : TraceId) (e1 e2 : Nat) (s : Sys W) : Sys W :=
  emit (.TRACE_2L evt e1 e2) s

/-- The cast `(uint64_t)ret` of an `int32_t`: sign extension, read as unsigned. -/
def to_uint64 (ret : Int) : Nat :=
  (ret % 2 ^ 64).toNat

/-- The case labels in the order the `switch` lists them. -/
def HcCase.all : List HcCase :=
  [.HC_SOS_OFFLINE_CPU, .HC_GET_API_VERSION, .HC_GET_PLATFORM_INFO,
   .HC_SET_CALLBACK_VECTOR, .HC_CREATE_VM, .HC_DESTROY_VM, .HC_START_VM,
   .HC_RESET_VM, .HC_PAUSE_VM, .HC_CREATE_VCPU, .HC_SET_VCPU_REGS,
   .HC_SET_IRQLINE, .HC_INJECT_MSI, .HC_SET_IOREQ_BUFFER,
   .HC_NOTIFY_REQUEST_FINISH, .HC_VM_SET_MEMORY_REGIONS,
   .HC_VM_WRITE_PROTECT_PAGE, .HC_VM_PCI_MSIX_REMAP, .HC_VM_GPA2HPA,
   .HC_ASSIGN_PTDEV, .HC_DEASSIGN_PTDEV, .HC_SET_PTDEV_INTR_INFO,
   .HC_RESET_PTDEV_INTR_INFO, .HC_WORLD_SWITCH, .HC_INITIALIZE_TRUSTY,
   .HC_PM_GET_CPU_STATE, .HC_SAVE_RESTORE_SWORLD_CTX, .HC_VM_INTR_MONITOR]

/-- Selection of the `switch (hypcall_id)` arm: the label whose constant equals
the scrutinee, or `none` for the `default` arm. -/
def switch_case (hc_id : HcCase → Nat) (hypcall_id : Nat) : Option HcCase :=
  HcCase.all.find? (fun l => hc_id l == hypcall_id)

/-! ## The dispatcher -/

/-- The function `dispatch_hypercall(vcpu)`: decode the request from the guest
registers, select the `switch` arm, and give the `int32_t` result `ret`
(initially `-1`). -/
def dispatch_hypercall (env : Env W) (vcpu : acrn_vcpu) (s : Sys W) : Int × Sys W :=
  let vm := vcpu.vm
  let (hypcall_id, s) := vcpu_get_gpreg env vcpu .CPU_REG_R8 s
  let (param1, s) := vcpu_get_gpreg env vcpu .CPU_REG_RDI s
  let (param2, s) := vcpu_get_gpreg env vcpu .CPU_REG_RSI s
  let vm_id := param1 % 2 ^ 16
  let vmid_is_valid := decide (vm_id < env.CONFIG_MAX_VM_NUM)
  let ret : Int := -1
  match switch_case env.hc_id hypcall_id with
  | some .HC_SOS_OFFLINE_CPU =>
    let s := spinlock_obtain s
    let (ret, s) := hcall env (.hcall_sos_offline_cpu vm param1) s
    let s := spinlock_release s
    (ret, s)
  | some .HC_GET_API_VERSION =>
    hcall env (.hcall_get_api_version vm param1) s
  | some .HC_GET_PLATFORM_INFO =>
    hcall env (.hcall_get_platform_info vm param1) s
  | some .HC_SET_CALLBACK_VECTOR =>
    hcall env (.hcall_set_callback_vector vm param1) s
  | some .HC_CREATE_VM =>
    let s := spinlock_obtain s
    let (ret, s) := hcall env (.hcall_create_vm vm param1) s
    let s := spinlock_release s
    (ret, s)
  | some .HC_DESTROY_VM =>
    if vmid_is_valid then
      let s := spinlock_obtain s
      let (ret, s) := hcall env (.hcall_destroy_vm vm_id) s
      let s := spinlock_release s
      (ret, s)
    else
      (ret, s)
  | some .HC_START_VM =>
    if vmid_is_valid then
      let s := spinlock_obtain s
      let (ret, s) := hcall env (.hcall_start_vm vm_id) s
      let s := spinlock_release s
      (ret, s)
    else
      (ret, s)
  | some .HC_RESET_VM =>
    if vmid_is_valid then
      let s := spinlock_obtain s
      let (ret, s) := hcall env (.hcall_reset_vm vm_id) s
      let s := spinlock_release s
      (ret, s)
    else
      (ret, s)
  | some .HC_PAUSE_VM =>
    if vmid_is_valid then
      let s := spinlock_obtain s
      let (ret, s) := hcall env (.hcall_pause_vm vm_id) s
      let s := spinlock_release s
      (ret, s)
    else
      (ret, s)
  | some .HC_CREATE_VCPU =>
    if vmid_is_valid then
      let s := spinlock_obtain s
      let (ret, s) := hcall env (.hcall_create_vcpu vm vm_id param2) s
      let s := spinlock_release s
      (ret, s)
    else
      (ret, s)
  | some .HC_SET_VCPU_REGS =>
    if vmid_is_valid then
      let s := spinlock_obtain s
      let (ret, s) := hcall env (.hcall_set_vcpu_regs vm vm_id param2) s
      let s := spinlock_release s
      (ret, s)
    else
      (ret, s)
  | some .HC_SET_IRQLINE =>
    if vmid_is_valid then
      hcall env (.hcall_set_irqline vm vm_id param2) s
    else
      (ret, s)
  | some .HC_INJECT_MSI =>
    if vmid_is_valid then
      hcall env (.hcall_inject_msi vm vm_id param2) s
    else
      (ret, s)
  | some .HC_SET_IOREQ_BUFFER =>
    if vmid_is_valid then
      let s := spinlock_obtain s
      let (ret, s) := hcall env (.hcall_set_ioreq_buffer vm vm_id param2) s
      let s := spinlock_release s
      (ret, s)
    else
      (ret, s)
  | some .HC_NOTIFY_REQUEST_FINISH =>
    if vmid_is_valid then
      hcall env (.hcall_notify_ioreq_finish vm_id (param2 % 2 ^ 16)) s
    else
      (ret, s)
  | some .HC_VM_SET_MEMORY_REGIONS =>
    hcall env (.hcall_set_vm_memory_regions vm param1) s
  | some .HC_VM_WRITE_PROTECT_PAGE =>
    if vmid_is_valid then
      hcall env (.hcall_write_protect_page vm vm_id param2) s
    else
      (ret, s)
  | some .HC_VM_PCI_MSIX_REMAP =>
    (0, s)
  | some .HC_VM_GPA2HPA =>
    if vmid_is_valid then
      hcall env (.hcall_gpa_to_hpa vm vm_id param2) s
    else
      (ret, s)
  | some .HC_ASSIGN_PTDEV =>
    if vmid_is_valid then
      hcall env (.hcall_assign_ptdev vm vm_id param2) s
    else
      (ret, s)
  | some .HC_DEASSIGN_PTDEV =>
    if vmid_is_valid then
      hcall env (.hcall_deassign_ptdev vm vm_id param2) s
    else
      (ret, s)
  | some .HC_SET_PTDEV_INTR_INFO =>
    if vmid_is_valid then
      hcall env (.hcall_set_ptdev_intr_info vm vm_id param2) s
    else
      (ret, s)
  | some .HC_RESET_PTDEV_INTR_INFO =>
    if vmid_is_valid then
      hcall env (.hcall_reset_ptdev_intr_info vm vm_id param2) s
    else
      (ret, s)
  | some .HC_WORLD_SWITCH =>
    hcall env (.hcall_world_switch vcpu) s
  | some .HC_INITIALIZE_TRUSTY =>
    hcall env (.hcall_initialize_trusty vcpu param1) s
  | some .HC_PM_GET_CPU_STATE =>
    hcall env (.hcall_get_cpu_pm_state vm param1 param2) s
  | some .HC_SAVE_RESTORE_SWORLD_CTX =>
    hcall env (.hcall_save_restore_sworld_ctx vcpu) s
  | some .HC_VM_INTR_MONITOR =>
    if vmid_is_valid then
      hcall env (.hcall_vm_intr_monitor vm vm_id param2) s
    else
      (ret, s)
  | none =>
    hcall env (.hcall_debug vm param1 param2 hypcall_id) s

/-! ## The privilege and origin gate -/

/-- The function `vmcall_vmexit_handler(vcpu)`: reject the call with #UD or
with `-EACCES`, or dispatch it and pass the status to the guest in RAX; then
trace, and return 0. -/
def vmcall_vmexit_handler (env : Env W) (vcpu : acrn_vcpu) (s : Sys W) : Int × Sys W :=
  let vm := vcpu.vm
  let (hypcall_id, s) := vcpu_get_gpreg env vcpu .CPU_REG_R8 s
  let s :=
    if !env.is_sos_vm vm && (hypcall_id != env.hc_id .HC_WORLD_SWITCH) &&
        (hypcall_id != env.hc_id .HC_INITIALIZE_TRUSTY) &&
        (hypcall_id != env.hc_id .HC_SAVE_RESTORE_SWORLD_CTX) then
      let s := vcpu_inject_ud env vcpu s
      pr_err (.only_from_sos_vm hypcall_id) s
    else if !env.is_hypercall_from_ring0 s.world then
      let s := pr_err .only_from_ring0 s
      let ret : Int := -(env.EACCES : Int)
      vcpu_set_gpreg env vcpu .CPU_REG_RAX (to_uint64 ret) s
    else
      let (ret, s) := dispatch_hypercall env vcpu s
      vcpu_set_gpreg env vcpu .CPU_REG_RAX (to_uint64 ret) s
  let s := TRACE_2L .TRACE_VMEXIT_VMCALL vm.vm_id hypcall_id s
  (0, s)

/-! ## Observations on the log -/

/-- The events a run from `s` to `t` has added to the log. -/
def emitted (s t : Sys W) : List Event :=
  t.log.drop s.log.length

/-- The handler calls among some events, in order. -/
def handler_calls (evs : List Event) : List HandlerCall :=
  evs.filterMap fun e => match e with
    | .hcall c => some c
    | _ => none

/-- The values written to RAX among some events, in order. -/
def rax_writes (evs : List Event) : List Nat :=
  evs.filterMap fun e => match e with
    | .vcpu_set_gpreg .CPU_REG_RAX v => some v
    | _ => none

/-- Number of #UD injections among some events. -/
def ud_count (evs : List Event) : Nat :=
  evs.count .vcpu_inject_ud

/-- Number of times the hypercall lock is obtained among some events. -/
def lock_obtains (evs : List Event) : Nat :=
  evs.count .spinlock_obtain

/-- Number of times the hypercall lock is released among some events. -/
def lock_releases (evs : List Event) : Nat :=
  evs.count .spinlock_release

/-- The trace records among some events, in order. -/
def trace_records (evs : List Event) : List (TraceId × Nat × Nat) :=
  evs.filterMap fun e => match e with
    | .TRACE_2L evt e1 e2 => some (evt, e1, e2)
    | _ => none

/-- A 64-bit register value read as a signed 64-bit integer. -/
def as_int64 (v : Nat) : Int :=
  if v % 2 ^ 64 < 2 ^ 63 then (v % 2 ^ 64 : Nat) else (v % 2 ^ 64 : Nat) - 2 ^ 64

/-- A register value truncated to 32 bits and read as a signed 32-bit integer. -/
def as_int32 (v : Nat) : Int :=
  if v % 2 ^ 32 < 2 ^ 31 then (v % 2 ^ 32 : Nat) else (v % 2 ^ 32 : Nat) - 2 ^ 32

/-! ## Operation classes -/

/-- The operations whose `switch` arm is guarded by `vmid_is_valid`. -/
def vmid_ops : List HcCase :=
  [.HC_DESTROY_VM, .HC_START_VM, .HC_RESET_VM, .HC_PAUSE_VM, .HC_CREATE_VCPU,
   .HC_SET_VCPU_REGS, .HC_SET_IOREQ_BUFFER, .HC_SET_IRQLINE, .HC_INJECT_MSI,
   .HC_NOTIFY_REQUEST_FINISH, .HC_VM_WRITE_PROTECT_PAGE, .HC_VM_GPA2HPA,
   .HC_ASSIGN_PTDEV, .HC_DEASSIGN_PTDEV, .HC_SET_PTDEV_INTR_INFO,
   .HC_RESET_PTDEV_INTR_INFO, .HC_VM_INTR_MONITOR]

/-- The operations whose `switch` arm brackets the handler call with
`spinlock_obtain` and `spinlock_release`. -/
def lock_ops : List HcCase :=
  [.HC_SOS_OFFLINE_CPU, .HC_CREATE_VM, .HC_DESTROY_VM, .HC_START_VM,
   .HC_RESET_VM, .HC_PAUSE_VM, .HC_CREATE_VCPU, .HC_SET_VCPU_REGS,
   .HC_SET_IOREQ_BUFFER]

/-- The operations whose `switch` arm calls a handler with neither the
`vmid_is_valid` guard nor the lock. -/
def plain_ops : List HcCase :=
  [.HC_GET_API_VERSION, .HC_GET_PLATFORM_INFO, .HC_SET_CALLBACK_VECTOR,
   .HC_VM_SET_MEMORY_REGIONS, .HC_WORLD_SWITCH, .HC_INITIALIZE_TRUSTY,
   .HC_PM_GET_CPU_STATE, .HC_SAVE_RESTORE_SWORLD_CTX]

/-- The two operations whose `switch` arm takes the lock without the
`vmid_is_valid` guard. -/
def lock_only_ops : List HcCase :=
  [.HC_CREATE_VM, .HC_SOS_OFFLINE_CPU]

/-- The `switch` arm a handler is called from; `hcall_debug` is called from
the `default` arm, which has no label. -/
def HandlerCall.arm : HandlerCall → Option HcCase
  | .hcall_sos_offline_cpu _ _ => some .HC_SOS_OFFLINE_CPU
  | .hcall_get_api_version _ _ => some .HC_GET_API_VERSION
  | .hcall_get_platform_info _ _ => some .HC_GET_PLATFORM_INFO
  | .hcall_set_callback_vector _ _ => some .HC_SET_CALLBACK_VECTOR
  | .hcall_create_vm _ _ => some .HC_CREATE_VM
  | .hcall_destroy_vm _ => some .HC_DESTROY_VM
  | .hcall_start_vm _ => some .HC_START_VM
  | .hcall_reset_vm _ => some .HC_RESET_VM
  | .hcall_pause_vm _ => some .HC_PAUSE_VM
  | .hcall_create_vcpu _ _ _ => some .HC_CREATE_VCPU
  | .hcall_set_vcpu_regs _ _ _ => some .HC_SET_VCPU_REGS
  | .hcall_set_irqline _ _ _ => some .HC_SET_IRQLINE
  | .hcall_inject_msi _ _ _ => some .HC_INJECT_MSI
  | .hcall_set_ioreq_buffer _ _ _ => some .HC_SET_IOREQ_BUFFER
  | .hcall_notify_ioreq_finish _ _ => some .HC_NOTIFY_REQUEST_FINISH
  | .hcall_set_vm_memory_regions _ _ => some .HC_VM_SET_MEMORY_REGIONS
  | .hcall_write_protect_page _ _ _ => some .HC_VM_WRITE_PROTECT_PAGE
  | .hcall_gpa_to_hpa _ _ _ => some .HC_VM_GPA2HPA
  | .hcall_assign_ptdev _ _ _ => some .HC_ASSIGN_PTDEV
  | .hcall_deassign_ptdev _ _ _ => some .HC_DEASSIGN_PTDEV
  | .hcall_set_ptdev_intr_info _ _ _ => some .HC_SET_PTDEV_INTR_INFO
  | .hcall_reset_ptdev_intr_info _ _ _ => some .HC_RESET_PTDEV_INTR_INFO
  | .hcall_world_switch _ => some .HC_WORLD_SWITCH
  | .hcall_initialize_trusty _ _ => some .HC_INITIALIZE_TRUSTY
  | .hcall_get_cpu_pm_state _ _ _ => some .HC_PM_GET_CPU_STATE
  | .hcall_save_restore_sworld_ctx _ => some .HC_SAVE_RESTORE_SWORLD_CTX
  | .hcall_vm_intr_monitor _ _ _ => some .HC_VM_INTR_MONITOR
  | .hcall_debug _ _ _ _ => none

/-- The `vm_id` argument of a handler call, for the handlers that take one. -/
def HandlerCall.vm_id? : HandlerCall → Option Nat
  | .hcall_destroy_vm vm_id => some vm_id
  | .hcall_start_vm vm_id => some vm_id
  | .hcall_reset_vm vm_id => some vm_id
  | .hcall_pause_vm vm_id => some vm_id
  | .hcall_create_vcpu _ vm_id _ => some vm_id
  | .hcall_set_vcpu_regs _ vm_id _ => some vm_id
  | .hcall_set_irqline _ vm_id _ => some vm_id
  | .hcall_inject_msi _ vm_id _ => some vm_id
  | .hcall_set_ioreq_buffer _ vm_id _ => some vm_id
  | .hcall_notify_ioreq_finish vm_id _ => some vm_id
  | .hcall_write_protect_page _ vm_id _ => some vm_id
  | .hcall_gpa_to_hpa _ vm_id _ => some vm_id
  | .hcall_assign_ptdev _ vm_id _ => some vm_id
  | .hcall_deassign_ptdev _ vm_id _ => some vm_id
  | .hcall_set_ptdev_intr_info _ vm_id _ => some vm_id
  | .hcall_reset_ptdev_intr_info _ vm_id _ => some vm_id
  | .hcall_vm_intr_monitor _ vm_id _ => some vm_id
  | _ => none

/-! ## Concurrent contexts and the hypercall lock

Two execution contexts (two vCPUs on two physical cores) each run
`dispatch_hypercall`.  A schedule lists the calls both make, each tagged with
its context, in the global order in which they happen. -/

/-- The two execution contexts of a schedule. -/
inductive Ctx
  | first
  | second
  deriving DecidableEq, Repr

/-- The calls one context makes in a schedule, in order. -/
def calls_of (c : Ctx) (sched : List (Ctx × Event)) : List Event :=
  sched.filterMap fun x => if x.1 = c then some x.2 else none

/-- Modelled from the spec: the contract of `spinlock_obtain` and
`spinlock_release` on `vmm_hypercall_lock`, whose implementation (spinlock.h)
is not among the sources.  The lock is one mutual-exclusion resource:
`spinlock_obtain` spins until the lock is available, so it returns only when
the lock is free, and the caller then holds it; `spinlock_release` makes the
lock free; no other call touches it.  The result is the holder after the call,
or `none` when the call cannot return in that state. -/
def lock_step (holder : Option Ctx) (x : Ctx × Event) : Option (Option Ctx) :=
  match x.2 with
  | .spinlock_obtain => if holder = none then some (some x.1) else none
  | .spinlock_release => some none
  | _ => some holder

/-- Modelled from the spec: the holder of `vmm_hypercall_lock` after a
schedule, following `lock_step` call by call; `none` when the schedule has a
`spinlock_obtain` that returns while the lock is held, which the lock
contract excludes. -/
def lock_run (holder : Option Ctx) : List (Ctx × Event) → Option (Option Ctx)
  | [] => some holder
  | x :: rest =>
    match lock_step holder x with
    | none => none
    | some h => lock_run h rest

/-- Whether a context is between its `spinlock_obtain` and its
`spinlock_release` after one more of its calls. -/
def window_step (inside : Bool) : Event → Bool
  | .spinlock_obtain => true
  | .spinlock_release => false
  | _ => inside

/-- Whether a context is between its `spinlock_obtain` and its
`spinlock_release` after some of its calls. -/
def window_after (inside : Bool) : List Event → Bool
  | [] => inside
  | e :: rest => window_after (window_step inside e) rest

/-- The handler execution window of a context: after the calls `pre` of a
schedule, the context has obtained the lock and not yet released it. -/
def in_window (c : Ctx) (pre : List (Ctx × Event)) : Bool :=
  window_after false (calls_of c pre)

/-- Whether a call keeps the lock discipline: obtain only outside the window,
release and handler calls only inside it. -/
def allowed (inside : Bool) : Event → Bool
  | .spinlock_obtain => !inside
  | .spinlock_release => inside
  | .hcall _ => inside
  | _ => true

/-- Whether the calls of one context keep the lock discipline throughout. -/
def bracketed (inside : Bool) : List Event → Bool
  | [] => true
  | e :: rest => allowed inside e && bracketed (window_step inside e) rest

/-! ## A concrete environment

A small executable instance of `Env`, used to run the definitions on explicit
inputs: eight VM slots, VM 0 is the SOS VM, `EACCES` is 13, and the hypercall
ids are pairwise distinct numbers of the form `0x80000000 + n`. -/

/-- World of the concrete environment: the four registers of the vCPU, the
guest privilege ring, the number of pending #UD injections and the number of
handlers that have run. -/
structure DemoWorld where
  r8 : Nat
  rdi : Nat
  rsi : Nat
  rax : Nat
  ring : Nat
  ud_pending : Nat
  handled : Nat
  deriving DecidableEq, Repr

/-- Concrete hypercall ids, pairwise distinct. -/
def demo_hc_id : HcCase → Nat
  | .HC_GET_API_VERSION => 0x80000000
  | .HC_SOS_OFFLINE_CPU => 0x80000001
  | .HC_SET_CALLBACK_VECTOR => 0x80000002
  | .HC_GET_PLATFORM_INFO => 0x80000003
  | .HC_CREATE_VM => 0x80000010
  | .HC_DESTROY_VM => 0x80000011
  | .HC_START_VM => 0x80000012
  | .HC_PAUSE_VM => 0x80000013
  | .HC_CREATE_VCPU => 0x80000014
  | .HC_RESET_VM => 0x80000015
  | .HC_SET_VCPU_REGS => 0x80000016
  | .HC_INJECT_MSI => 0x80000023
  | .HC_VM_INTR_MONITOR => 0x80000024
  | .HC_SET_IRQLINE => 0x80000025
  | .HC_SET_IOREQ_BUFFER => 0x80000030
  | .HC_NOTIFY_REQUEST_FINISH => 0x80000031
  | .HC_VM_GPA2HPA => 0x80000041
  | .HC_VM_SET_MEMORY_REGIONS => 0x80000042
  | .HC_VM_WRITE_PROTECT_PAGE => 0x80000043
  | .HC_VM_PCI_MSIX_REMAP => 0x80000052
  | .HC_SET_PTDEV_INTR_INFO => 0x80000053
  | .HC_RESET_PTDEV_INTR_INFO => 0x80000054
  | .HC_ASSIGN_PTDEV => 0x80000055
  | .HC_DEASSIGN_PTDEV => 0x80000056
  | .HC_INITIALIZE_TRUSTY => 0x80000070
  | .HC_WORLD_SWITCH => 0x80000071
  | .HC_SAVE_RESTORE_SWORLD_CTX => 0x80000072
  | .HC_PM_GET_CPU_STATE => 0x80000080

/-- Status of the concrete handlers: the diagnostic handler answers `-1`,
`hcall_get_api_version` answers 0, a handler given a VM id answers `-22` for
VM 0 and the VM id otherwise, every other handler answers `-19`. -/
def demo_status : HandlerCall → Int
  | .hcall_debug _ _ _ _ => -1
  | .hcall_get_api_version _ _ => 0
  | .hcall_destroy_vm vm_id => if vm_id = 0 then -22 else vm_id
  | .hcall_start_vm vm_id => if vm_id = 0 then -22 else vm_id
  | .hcall_reset_vm vm_id => if vm_id = 0 then -22 else vm_id
  | .hcall_pause_vm vm_id => if vm_id = 0 then -22 else vm_id
  | .hcall_create_vcpu _ vm_id _ => if vm_id = 0 then -22 else vm_id
  | .hcall_set_vcpu_regs _ vm_id _ => if vm_id = 0 then -22 else vm_id
  | .hcall_set_irqline _ vm_id _ => if vm_id = 0 then -22 else vm_id
  | .hcall_inject_msi _ vm_id _ => if vm_id = 0 then -22 else vm_id
  | .hcall_set_ioreq_buffer _ vm_id _ => if vm_id = 0 then -22 else vm_id
  | .hcall_notify_ioreq_finish vm_id _ => if vm_id = 0 then -22 else vm_id
  | .hcall_write_protect_page _ vm_id _ => if vm_id = 0 then -22 else vm_id
  | .hcall_gpa_to_hpa _ vm_id _ => if vm_id = 0 then -22 else vm_id
  | .hcall_assign_ptdev _ vm_id _ => if vm_id = 0 then -22 else vm_id
  | .hcall_deassign_ptdev _ vm_id _ => if vm_id = 0 then -22 else vm_id
  | .hcall_set_ptdev_intr_info _ vm_id _ => if vm_id = 0 then -22 else vm_id
  | .hcall_reset_ptdev_intr_info _ vm_id _ => if vm_id = 0 then -22 else vm_id
  | .hcall_vm_intr_monitor _ vm_id _ => if vm_id = 0 then -22 else vm_id
  | _ => -19

/-- The concrete environment. -/
def demo_env : Env DemoWorld where
  CONFIG_MAX_VM_NUM := 8
  EACCES := 13
  hc_id := demo_hc_id
  is_sos_vm vm := vm.vm_id == 0
  is_hypercall_from_ring0 w := w.ring == 0
  get_gpreg _ reg w :=
    match reg with
    | .CPU_REG_RAX => w.rax
    | .CPU_REG_RDI => w.rdi
    | .CPU_REG_RSI => w.rsi
    | .CPU_REG_R8 => w.r8
  set_gpreg _ reg val w :=
    match reg with
    | .CPU_REG_RAX => { w with rax := val }
    | .CPU_REG_RDI => { w with rdi := val }
    | .CPU_REG_RSI => { w with rsi := val }
    | .CPU_REG_R8 => { w with r8 := val }
  inject_ud _ w := { w with ud_pending := w.ud_pending + 1 }
  hcall c w := (demo_status c, { w with handled := w.handled + 1 })

/-- A vCPU of the SOS VM (VM 0). -/
def sos_vcpu : acrn_vcpu :=
  { vcpu_id := 0, vm := { vm_id := 0 } }

/-- A vCPU of a post-launched VM (VM 2). -/
def uos_vcpu : acrn_vcpu :=
  { vcpu_id := 0, vm := { vm_id := 2 } }

/-- A state of the concrete world with an empty log: the hypercall id in R8,
the parameters in RDI and RSI, and the guest privilege ring. -/
def demo_sys (r8 rdi rsi ring : Nat) : Sys DemoWorld :=
  { world := { r8 := r8, rdi := rdi, rsi := rsi, rax := 0, ring := ring,
               ud_pending := 0, handled := 0 },
    log := [] }

/-- A second vCPU of the SOS VM. -/
def sos_vcpu1 : acrn_vcpu :=
  { vcpu_id := 1, vm := { vm_id := 0 } }

/-- A schedule of two concurrent calls: the first context issues
`HC_CREATE_VM`, the second `HC_DESTROY_VM` for VM 1; the second context
obtains the lock after the first has released it. -/
def demo_schedule : List (Ctx × Event) :=
  [(.first, .vcpu_get_gpreg .CPU_REG_R8), (.second, .vcpu_get_gpreg .CPU_REG_R8),
   (.first, .vcpu_get_gpreg .CPU_REG_RDI), (.first, .vcpu_get_gpreg .CPU_REG_RSI),
   (.second, .vcpu_get_gpreg .CPU_REG_RDI), (.first, .spinlock_obtain),
   (.second, .vcpu_get_gpreg .CPU_REG_RSI),
   (.first, .hcall (.hcall_create_vm sos_vcpu.vm 0)), (.first, .spinlock_release),
   (.second, .spinlock_obtain), (.second, .hcall (.hcall_destroy_vm 1)),
   (.second, .spinlock_release)]

/-- A schedule of two concurrent calls: the first context issues
`HC_CREATE_VM`, the second `HC_SET_IRQLINE` for VM 1, whose handler runs
without the lock, after the first context has obtained it. -/
def demo_schedule_irqline : List (Ctx × Event) :=
  [(.first, .vcpu_get_gpreg .CPU_REG_R8), (.first, .vcpu_get_gpreg .CPU_REG_RDI),
   (.first, .vcpu_get_gpreg .CPU_REG_RSI), (.first, .spinlock_obtain),
   (.second, .vcpu_get_gpreg .CPU_REG_R8), (.second, .vcpu_get_gpreg .CPU_REG_RDI),
   (.second, .vcpu_get_gpreg .CPU_REG_RSI),
   (.second, .hcall (.hcall_set_irqline sos_vcpu1.vm 1 0)),
   (.first, .hcall (.hcall_create_vm sos_vcpu.vm 0)), (.first, .spinlock_release)]

/-! ## Basic facts -/

theorem HcCase.mem_all (l : HcCase) : l ∈ HcCase.all := by
  cases l <;> simp [HcCase.all]

/-- With pairwise distinct case constants, the constant of a label selects
that label. -/
theorem switch_case_hc_id (hc_id : HcCase → Nat) (hinj : Function.Injective hc_id)
    (l : HcCase) : switch_case hc_id (hc_id l) = some l := by
  unfold switch_case
  cases h : HcCase.all.find? (fun k => hc_id k == hc_id l) with
  | none =>
    rw [List.find?_eq_none] at h
    exact absurd (by simp) (h l (HcCase.mem_all l))
  | some k =>
    have hk := List.find?_some h
    simp only [beq_iff_eq] at hk
    rw [hinj hk]

/-- A value that is the constant of no label selects the default arm. -/
theorem switch_case_default (hc_id : HcCase → Nat) (n : Nat) (h : ∀ l, n ≠ hc_id l) :
    switch_case hc_id n = none := by
  unfold switch_case
  rw [List.find?_eq_none]
  intro l _ hl
  simp only [beq_iff_eq] at hl
  exact h l hl.symm

theorem demo_hc_id_injective : Function.Injective demo_hc_id := by
  intro a b h
  cases a <;> cases b <;> first | rfl | (exact absurd h (by decide))

/-- The arm selected by `switch` carries the scrutinee as its constant. -/
theorem switch_case_some (hc_id : HcCase → Nat) (n : Nat) (k : HcCase)
    (h : switch_case hc_id n = some k) : n = hc_id k := by
  have hk := List.find?_some h
  simp only [beq_iff_eq] at hk
  exact hk.symm

/-- When `switch` falls to the default arm, no label has the scrutinee as its
constant. -/
theorem switch_case_none (hc_id : HcCase → Nat) (n : Nat)
    (h : switch_case hc_id n = none) (l : HcCase) : n ≠ hc_id l := by
  unfold switch_case at h
  rw [List.find?_eq_none] at h
  intro hl
  exact h l (HcCase.mem_all l) (by simp [hl])

/-- A run of `dispatch_hypercall` only appends to the log. -/
theorem dispatch_hypercall_log (env : Env W) (vcpu : acrn_vcpu) (s : Sys W) :
    (dispatch_hypercall env vcpu s).2.log =
      s.log ++ emitted s (dispatch_hypercall env vcpu s).2 := by
  cases hsw : switch_case env.hc_id (env.get_gpreg vcpu .CPU_REG_R8 s.world) with
  | none =>
    simp [dispatch_hypercall, vcpu_get_gpreg, hcall, emit, emitted, hsw]
  | some k =>
    by_cases hv : env.get_gpreg vcpu .CPU_REG_RDI s.world % 65536 < env.CONFIG_MAX_VM_NUM <;>
      cases k <;>
      simp [dispatch_hypercall, vcpu_get_gpreg, hcall, spinlock_obtain, spinlock_release,
        emit, emitted, hsw, hv]

/-- The calls of a run of `dispatch_hypercall`: the three register reads, then
nothing, or one handler call, or one handler call between obtaining and
releasing the lock; when a handler is called, its status is the result. -/
theorem dispatch_hypercall_shape (env : Env W) (vcpu : acrn_vcpu) (s : Sys W) :
    (emitted s (dispatch_hypercall env vcpu s).2 =
        [.vcpu_get_gpreg .CPU_REG_R8, .vcpu_get_gpreg .CPU_REG_RDI,
         .vcpu_get_gpreg .CPU_REG_RSI] ∧
      (dispatch_hypercall env vcpu s).2.world = s.world) ∨
    ∃ c, (emitted s (dispatch_hypercall env vcpu s).2 =
          [.vcpu_get_gpreg .CPU_REG_R8, .vcpu_get_gpreg .CPU_REG_RDI,
           .vcpu_get_gpreg .CPU_REG_RSI, .hcall c] ∨
        emitted s (dispatch_hypercall env vcpu s).2 =
          [.vcpu_get_gpreg .CPU_REG_R8, .vcpu_get_gpreg .CPU_REG_RDI,
           .vcpu_get_gpreg .CPU_REG_RSI, .spinlock_obtain, .hcall c,
           .spinlock_release]) ∧
      (dispatch_hypercall env vcpu s).1 = (env.hcall c s.world).1 ∧
      (dispatch_hypercall env vcpu s).2.world = (env.hcall c s.world).2 := by
  cases hsw : switch_case env.hc_id (env.get_gpreg vcpu .CPU_REG_R8 s.world) with
  | none =>
    simp [dispatch_hypercall, vcpu_get_gpreg, hcall, emit, emitted, hsw]
  | some k =>
    by_cases hv : env.get_gpreg vcpu .CPU_REG_RDI s.world % 65536 < env.CONFIG_MAX_VM_NUM <;>
      cases k <;>
      simp [dispatch_hypercall, vcpu_get_gpreg, hcall, spinlock_obtain, spinlock_release,
        emit, emitted, hsw, hv]

/-- A run of `dispatch_hypercall` that calls no handler results in `-1`, the
initial value of `ret`, or in 0, the result of the `HC_VM_PCI_MSIX_REMAP` arm. -/
theorem dispatch_hypercall_no_handler (env : Env W) (vcpu : acrn_vcpu) (s : Sys W)
    (h : handler_calls (emitted s (dispatch_hypercall env vcpu s).2) = []) :
    (dispatch_hypercall env vcpu s).1 = -1 ∨ (dispatch_hypercall env vcpu s).1 = 0 := by
  revert h
  cases hsw : switch_case env.hc_id (env.get_gpreg vcpu .CPU_REG_R8 s.world) with
  | none =>
    simp [dispatch_hypercall, vcpu_get_gpreg, hcall, emit, emitted, handler_calls, hsw]
  | some k =>
    by_cases hv : env.get_gpreg vcpu .CPU_REG_RDI s.world % 65536 < env.CONFIG_MAX_VM_NUM <;>
      cases k <;>
      simp [dispatch_hypercall, vcpu_get_gpreg, hcall, spinlock_obtain, spinlock_release,
        emit, emitted, handler_calls, hsw, hv]

/-- The three paths of `vmcall_vmexit_handler` and the calls made on each: the
fault, the soft error, and the dispatch. -/
theorem vmcall_vmexit_handler_paths (env : Env W) (vcpu : acrn_vcpu) (s : Sys W) :
    (env.is_sos_vm vcpu.vm = false ∧
      emitted s (vmcall_vmexit_handler env vcpu s).2 =
      [.vcpu_get_gpreg .CPU_REG_R8, .vcpu_inject_ud,
       .pr_err (.only_from_sos_vm (env.get_gpreg vcpu .CPU_REG_R8 s.world)),
       .TRACE_2L .TRACE_VMEXIT_VMCALL vcpu.vm.vm_id
         (env.get_gpreg vcpu .CPU_REG_R8 s.world)]) ∨
    (env.is_hypercall_from_ring0 s.world = false ∧
      emitted s (vmcall_vmexit_handler env vcpu s).2 =
      [.vcpu_get_gpreg .CPU_REG_R8, .pr_err .only_from_ring0,
       .vcpu_set_gpreg .CPU_REG_RAX (to_uint64 (-(env.EACCES : Int))),
       .TRACE_2L .TRACE_VMEXIT_VMCALL vcpu.vm.vm_id
         (env.get_gpreg vcpu .CPU_REG_R8 s.world)]) ∨
    (env.is_hypercall_from_ring0 s.world = true ∧
      emitted s (vmcall_vmexit_handler env vcpu s).2 =
      .vcpu_get_gpreg .CPU_REG_R8 ::
        (emitted (vcpu_get_gpreg env vcpu .CPU_REG_R8 s).2
          (dispatch_hypercall env vcpu (vcpu_get_gpreg env vcpu .CPU_REG_R8 s).2).2 ++
        [.vcpu_set_gpreg .CPU_REG_RAX
           (to_uint64
             (dispatch_hypercall env vcpu (vcpu_get_gpreg env vcpu .CPU_REG_R8 s).2).1),
         .TRACE_2L .TRACE_VMEXIT_VMCALL vcpu.vm.vm_id
           (env.get_gpreg vcpu .CPU_REG_R8 s.world)])) := by
  have hlog := dispatch_hypercall_log env vcpu (vcpu_get_gpreg env vcpu .CPU_REG_R8 s).2
  by_cases hcond : (!env.is_sos_vm vcpu.vm &&
      (env.get_gpreg vcpu .CPU_REG_R8 s.world != env.hc_id .HC_WORLD_SWITCH) &&
      (env.get_gpreg vcpu .CPU_REG_R8 s.world != env.hc_id .HC_INITIALIZE_TRUSTY) &&
      (env.get_gpreg vcpu .CPU_REG_R8 s.world != env.hc_id .HC_SAVE_RESTORE_SWORLD_CTX)) =
      true
  · left
    refine ⟨by simp at hcond; exact hcond.1.1.1, ?_⟩
    simp only [vmcall_vmexit_handler]
    simp [vcpu_get_gpreg, vcpu_inject_ud, pr_err, TRACE_2L, emit, emitted, hcond]
  · by_cases hring : env.is_hypercall_from_ring0 s.world = true
    · right; right
      refine ⟨hring, ?_⟩
      simp only [vmcall_vmexit_handler]
      simp only [vcpu_get_gpreg, emit, hcond, hring] at hlog ⊢
      simp only [emitted, TRACE_2L, vcpu_set_gpreg, emit]
      simp [hlog]
    · right; left
      refine ⟨by simpa using hring, ?_⟩
      simp only [vmcall_vmexit_handler]
      simp [vcpu_get_gpreg, vcpu_set_gpreg, pr_err, TRACE_2L, emit, emitted, hcond, hring]

/-- The cast of an `int32_t` to `uint64_t` is sign extension: the value modulo
2^64, which reads back as the same integer at 64 and at 32 bits. -/
theorem to_uint64_int32 (r : Int) (hlo : -2 ^ 31 ≤ r) (hhi : r < 2 ^ 31) :
    ((to_uint64 r : Nat) : Int) = r % 2 ^ 64 ∧
    (0 ≤ r → ((to_uint64 r : Nat) : Int) = r) ∧
    (r < 0 → ((to_uint64 r : Nat) : Int) = 2 ^ 64 + r) ∧
    as_int64 (to_uint64 r) = r ∧
    as_int32 (to_uint64 r) = r := by
  have h0 : (0 : Int) ≤ r % 2 ^ 64 := Int.emod_nonneg r (by norm_num)
  have h1 : ((to_uint64 r : Nat) : Int) = r % 2 ^ 64 := by
    unfold to_uint64
    exact Int.toNat_of_nonneg h0
  refine ⟨h1, ?_, ?_, ?_, ?_⟩
  · intro h
    rw [h1]
    omega
  · intro h
    rw [h1]
    omega
  · unfold as_int64
    split_ifs with h <;> push_cast <;> omega
  · unfold as_int32
    split_ifs with h <;> push_cast <;> omega

/-- The calls of a context start with its own call at the head of the schedule. -/
theorem calls_of_cons_self (c : Ctx) (e : Event) (rest : List (Ctx × Event)) :
    calls_of c ((c, e) :: rest) = e :: calls_of c rest := by
  simp [calls_of]

/-- A call of another context at the head of the schedule is not among the calls
of a context. -/
theorem calls_of_cons_other (c d : Ctx) (e : Event) (rest : List (Ctx × Event))
    (h : d ≠ c) : calls_of c ((d, e) :: rest) = calls_of c rest := by
  simp [calls_of, h]

/-- The calls of a context in two schedules put end to end. -/
theorem calls_of_append (c : Ctx) (a b : List (Ctx × Event)) :
    calls_of c (a ++ b) = calls_of c a ++ calls_of c b := by
  simp [calls_of]

/-- The window state after two runs of calls put end to end. -/
theorem window_after_append (inside : Bool) (xs ys : List Event) :
    window_after inside (xs ++ ys) = window_after (window_after inside xs) ys := by
  induction xs generalizing inside with
  | nil => rfl
  | cons e rest ih => simp [window_after, ih]

/-- A window that is open and then closed has seen a release. -/
theorem release_mem_of_window_closed (evs : List Event)
    (h : window_after true evs = false) : Event.spinlock_release ∈ evs := by
  induction evs with
  | nil => simp [window_after] at h
  | cons e rest ih =>
    cases e
    case spinlock_release => simp
    all_goals
      simp only [window_after, window_step] at h
      exact List.mem_cons_of_mem _ (ih h)

/-- A call of a context is in the schedule under that context's tag. -/
theorem mem_of_mem_calls_of (c : Ctx) (e : Event) (sched : List (Ctx × Event))
    (h : e ∈ calls_of c sched) : (c, e) ∈ sched := by
  simp only [calls_of, List.mem_filterMap] at h
  obtain ⟨x, hx, hxe⟩ := h
  obtain ⟨d, f⟩ := x
  by_cases hd : d = c
  · simp only [hd, if_true, Option.some.injEq] at hxe
    rw [← hxe, ← hd]
    exact hx
  · simp [hd] at hxe

/-- The lock invariant along a schedule.  When the contexts inside their
window are exactly the holder of the lock, every context keeps the lock
discipline and the schedule obeys the lock contract, then after any initial
part of the schedule the lock has a definite holder state, the contexts inside
their window are again exactly the holder, and the rest of each context's
calls keeps the discipline. -/
theorem lock_invariant (pre : List (Ctx × Event)) :
    ∀ (post : List (Ctx × Event)) (holder : Option Ctx) (ins : Ctx → Bool),
      (∀ c, ins c = true ↔ holder = some c) →
      (∀ c, bracketed (ins c) (calls_of c (pre ++ post)) = true) →
      (lock_run holder (pre ++ post)).isSome = true →
      ∃ h, lock_run holder pre = some h ∧
        (∀ c, window_after (ins c) (calls_of c pre) = true ↔ h = some c) ∧
        (∀ c, bracketed (window_after (ins c) (calls_of c pre)) (calls_of c post) = true) := by
  induction pre with
  | nil =>
    intro post holder ins hinv hbr _
    exact ⟨holder, rfl, by simpa [calls_of, window_after] using hinv,
      by simpa [calls_of, window_after] using hbr⟩
  | cons x pre ih =>
    intro post holder ins hinv hbr hrun
    obtain ⟨d, e⟩ := x
    simp only [List.cons_append, lock_run] at hrun
    cases hstep : lock_step holder (d, e) with
    | none => simp [hstep] at hrun
    | some h1 =>
      simp only [hstep] at hrun
      have hbd := hbr d
      simp only [List.cons_append, calls_of_cons_self, bracketed, Bool.and_eq_true] at hbd
      have hinv1 : ∀ c, (if c = d then window_step (ins c) e else ins c) = true ↔
          h1 = some c := by
        intro c
        cases e
        case spinlock_obtain =>
          simp only [lock_step] at hstep
          split at hstep
          · rename_i hnone
            simp only [Option.some.injEq] at hstep
            subst hstep
            by_cases hc : c = d
            · simp [hc, window_step]
            · have hf : ¬ ins c = true := (hinv c).not.mpr (by simp [hnone])
              simp [hc, hf, Ne.symm hc]
          · simp at hstep
        case spinlock_release =>
          simp only [lock_step, Option.some.injEq] at hstep
          subst hstep
          simp only [allowed] at hbd
          have hd := (hinv d).mp hbd.1
          by_cases hc : c = d
          · simp [hc, window_step]
          · have hf : ¬ ins c = true := (hinv c).not.mpr (by simp [hd, Ne.symm hc])
            simp [hc, hf]
        all_goals
          simp only [lock_step, Option.some.injEq] at hstep
          subst hstep
          by_cases hc : c = d <;> simp [hc, hinv, window_step]
      have hbr1 : ∀ c, bracketed (if c = d then window_step (ins c) e else ins c)
          (calls_of c (pre ++ post)) = true := by
        intro c
        by_cases hc : c = d
        · subst hc
          simpa using hbd.2
        · have := hbr c
          rw [List.cons_append, calls_of_cons_other c d e _ (Ne.symm hc)] at this
          simpa [hc] using this
      obtain ⟨h, hh, hw, hb⟩ := ih post h1 _ hinv1 hbr1 hrun
      refine ⟨h, by simp [lock_run, hstep, hh], ?_, ?_⟩
      · intro c
        by_cases hc : c = d
        · subst hc
          have := hw c
          simpa [calls_of_cons_self, window_after] using this
        · have := hw c
          rw [calls_of_cons_other c d e _ (Ne.symm hc)]
          simpa [hc] using this
      · intro c
        by_cases hc : c = d
        · subst hc
          have := hb c
          simpa [calls_of_cons_self, window_after] using this
        · have := hb c
          rw [calls_of_cons_other c d e _ (Ne.symm hc)]
          simpa [hc] using this

/-- The calls of `dispatch_hypercall` for a lock-requiring operation keep the
lock discipline: a handler call, if any, stands between obtaining and
releasing the lock. -/
theorem dispatch_hypercall_lock_op_bracketed (env : Env W)
    (hinj : Function.Injective env.hc_id) (vcpu : acrn_vcpu) (s : Sys W) (l : HcCase)
    (hl : l ∈ lock_ops) (hid : env.get_gpreg vcpu .CPU_REG_R8 s.world = env.hc_id l) :
    bracketed false (emitted s (dispatch_hypercall env vcpu s).2) = true := by
  have hsw := switch_case_hc_id env.hc_id hinj l
  simp only [lock_ops, List.mem_cons, List.mem_singleton, List.not_mem_nil, or_false] at hl
  by_cases hv : env.get_gpreg vcpu .CPU_REG_RDI s.world % 65536 < env.CONFIG_MAX_VM_NUM <;>
    rcases hl with h | h | h | h | h | h | h | h | h <;>
    subst h <;>
    simp [dispatch_hypercall, vcpu_get_gpreg, hcall, spinlock_obtain, spinlock_release,
      emit, emitted, bracketed, allowed, window_step, hid, hsw, hv]

/-! ## The gate: rejections -/

/-- C1: in `vmcall_vmexit_handler`, a call from a VM that is not the SOS VM,
with a hypercall id other than `HC_WORLD_SWITCH`, `HC_INITIALIZE_TRUSTY` and
`HC_SAVE_RESTORE_SWORLD_CTX`, whatever the ring and the parameters, makes
exactly the calls: read R8, inject #UD, log, trace.  So #UD is injected exactly
once, no handler runs, the lock is neither obtained nor released, RAX is not
written, and the world is the initial one with the #UD injected. -/
theorem C1_foreign_vm_call_faults (env : Env W) (vcpu : acrn_vcpu) (s : Sys W)
    (hvm : env.is_sos_vm vcpu.vm = false)
    (hws : env.get_gpreg vcpu .CPU_REG_R8 s.world ≠ env.hc_id .HC_WORLD_SWITCH)
    (hit : env.get_gpreg vcpu .CPU_REG_R8 s.world ≠ env.hc_id .HC_INITIALIZE_TRUSTY)
    (hsr : env.get_gpreg vcpu .CPU_REG_R8 s.world ≠
      env.hc_id .HC_SAVE_RESTORE_SWORLD_CTX) :
    emitted s (vmcall_vmexit_handler env vcpu s).2 =
      [.vcpu_get_gpreg .CPU_REG_R8, .vcpu_inject_ud,
       .pr_err (.only_from_sos_vm (env.get_gpreg vcpu .CPU_REG_R8 s.world)),
       .TRACE_2L .TRACE_VMEXIT_VMCALL vcpu.vm.vm_id
         (env.get_gpreg vcpu .CPU_REG_R8 s.world)] ∧
    ud_count (emitted s (vmcall_vmexit_handler env vcpu s).2) = 1 ∧
    handler_calls (emitted s (vmcall_vmexit_handler env vcpu s).2) = [] ∧
    lock_obtains (emitted s (vmcall_vmexit_handler env vcpu s).2) = 0 ∧
    lock_releases (emitted s (vmcall_vmexit_handler env vcpu s).2) = 0 ∧
    rax_writes (emitted s (vmcall_vmexit_handler env vcpu s).2) = [] ∧
    (vmcall_vmexit_handler env vcpu s).2.world = env.inject_ud vcpu s.world := by
  simp [vmcall_vmexit_handler, vcpu_get_gpreg, vcpu_inject_ud, pr_err, TRACE_2L, emit,
    emitted, ud_count, handler_calls, lock_obtains, lock_releases, rax_writes,
    hvm, hws, hit, hsr]

/-- C1 at a concrete input: VM 2 issues `HC_CREATE_VM` from ring 0. -/
theorem C1_foreign_vm_call_faults_witness :
    demo_env.is_sos_vm uos_vcpu.vm = false ∧
    ud_count (emitted (demo_sys 0x80000010 0 0 0)
      (vmcall_vmexit_handler demo_env uos_vcpu (demo_sys 0x80000010 0 0 0)).2) = 1 ∧
    handler_calls (emitted (demo_sys 0x80000010 0 0 0)
      (vmcall_vmexit_handler demo_env uos_vcpu (demo_sys 0x80000010 0 0 0)).2) = [] ∧
    rax_writes (emitted (demo_sys 0x80000010 0 0 0)
      (vmcall_vmexit_handler demo_env uos_vcpu (demo_sys 0x80000010 0 0 0)).2) = [] :=
  have h := C1_foreign_vm_call_faults demo_env uos_vcpu (demo_sys 0x80000010 0 0 0)
    (by decide) (by decide) (by decide) (by decide)
  ⟨by decide, h.2.1, h.2.2.1, h.2.2.2.2.2.1⟩

/-- C2: in `vmcall_vmexit_handler`, when the first gate rule does not reject
(the VM is the SOS VM, or the id is one of the three secure-world ids) and
`is_hypercall_from_ring0()` is false, the calls made are exactly: read R8,
log, write `(uint64_t)(-EACCES)` to RAX, trace.  So RAX is written exactly once
with `-EACCES`, no #UD is injected, no handler runs and the lock is untouched. -/
theorem C2_ring_violation_soft_error (env : Env W) (vcpu : acrn_vcpu) (s : Sys W)
    (hgate : env.is_sos_vm vcpu.vm = true ∨
      env.get_gpreg vcpu .CPU_REG_R8 s.world = env.hc_id .HC_WORLD_SWITCH ∨
      env.get_gpreg vcpu .CPU_REG_R8 s.world = env.hc_id .HC_INITIALIZE_TRUSTY ∨
      env.get_gpreg vcpu .CPU_REG_R8 s.world = env.hc_id .HC_SAVE_RESTORE_SWORLD_CTX)
    (hring : env.is_hypercall_from_ring0 s.world = false) :
    emitted s (vmcall_vmexit_handler env vcpu s).2 =
      [.vcpu_get_gpreg .CPU_REG_R8, .pr_err .only_from_ring0,
       .vcpu_set_gpreg .CPU_REG_RAX (to_uint64 (-(env.EACCES : Int))),
       .TRACE_2L .TRACE_VMEXIT_VMCALL vcpu.vm.vm_id
         (env.get_gpreg vcpu .CPU_REG_R8 s.world)] ∧
    rax_writes (emitted s (vmcall_vmexit_handler env vcpu s).2) =
      [to_uint64 (-(env.EACCES : Int))] ∧
    ud_count (emitted s (vmcall_vmexit_handler env vcpu s).2) = 0 ∧
    handler_calls (emitted s (vmcall_vmexit_handler env vcpu s).2) = [] ∧
    lock_obtains (emitted s (vmcall_vmexit_handler env vcpu s).2) = 0 ∧
    lock_releases (emitted s (vmcall_vmexit_handler env vcpu s).2) = 0 ∧
    (vmcall_vmexit_handler env vcpu s).2.world =
      env.set_gpreg vcpu .CPU_REG_RAX (to_uint64 (-(env.EACCES : Int))) s.world := by
  rcases hgate with h | h | h | h <;>
    simp [vmcall_vmexit_handler, vcpu_get_gpreg, vcpu_set_gpreg, pr_err, TRACE_2L, emit,
      emitted, ud_count, handler_calls, lock_obtains, lock_releases, rax_writes,
      h, hring]

/-- C2 at a concrete input: the SOS VM issues `HC_CREATE_VM` from ring 3, and
RAX receives `2 ^ 64 - 13`. -/
theorem C2_ring_violation_soft_error_witness :
    demo_env.is_hypercall_from_ring0 (demo_sys 0x80000010 0 0 3).world = false ∧
    rax_writes (emitted (demo_sys 0x80000010 0 0 3)
      (vmcall_vmexit_handler demo_env sos_vcpu (demo_sys 0x80000010 0 0 3)).2) =
      [to_uint64 (-(demo_env.EACCES : Int))] ∧
    to_uint64 (-(demo_env.EACCES : Int)) = 2 ^ 64 - 13 :=
  ⟨by decide,
   (C2_ring_violation_soft_error demo_env sos_vcpu (demo_sys 0x80000010 0 0 3)
     (Or.inl (by decide)) (by decide)).2.1,
   by decide⟩

/-- C3 as stated fails: VM 2 issues `HC_GET_API_VERSION` from ring 3; the
first gate rule rejects the call with #UD before the ring is looked at, and
RAX is not written at all. -/
theorem C3_counterexample :
    demo_env.is_hypercall_from_ring0 (demo_sys 0x80000000 0 0 3).world = false ∧
    rax_writes (emitted (demo_sys 0x80000000 0 0 3)
      (vmcall_vmexit_handler demo_env uos_vcpu (demo_sys 0x80000000 0 0 3)).2) ≠
      [to_uint64 (-(demo_env.EACCES : Int))] ∧
    rax_writes (emitted (demo_sys 0x80000000 0 0 3)
      (vmcall_vmexit_handler demo_env uos_vcpu (demo_sys 0x80000000 0 0 3)).2) = [] ∧
    ud_count (emitted (demo_sys 0x80000000 0 0 3)
      (vmcall_vmexit_handler demo_env uos_vcpu (demo_sys 0x80000000 0 0 3)).2) = 1 := by
  decide

/-- C3, amended: a call issued from a non-zero guest privilege ring invokes no
handler and takes no lock, for every operation id and every issuing VM; RAX is
written exactly once, with `-EACCES`, exactly when the issuing VM is the SOS VM
or the id is one of the three secure-world ids, and otherwise (any other id
from a VM that is not the SOS VM) #UD is injected once and RAX is not
written. -/
theorem C3_nonzero_ring_no_handler (env : Env W) (vcpu : acrn_vcpu) (s : Sys W)
    (hring : env.is_hypercall_from_ring0 s.world = false) :
    handler_calls (emitted s (vmcall_vmexit_handler env vcpu s).2) = [] ∧
    lock_obtains (emitted s (vmcall_vmexit_handler env vcpu s).2) = 0 ∧
    (rax_writes (emitted s (vmcall_vmexit_handler env vcpu s).2) =
        [to_uint64 (-(env.EACCES : Int))] ∧
      ud_count (emitted s (vmcall_vmexit_handler env vcpu s).2) = 0 ↔
      env.is_sos_vm vcpu.vm = true ∨
      env.get_gpreg vcpu .CPU_REG_R8 s.world = env.hc_id .HC_WORLD_SWITCH ∨
      env.get_gpreg vcpu .CPU_REG_R8 s.world = env.hc_id .HC_INITIALIZE_TRUSTY ∨
      env.get_gpreg vcpu .CPU_REG_R8 s.world = env.hc_id .HC_SAVE_RESTORE_SWORLD_CTX) ∧
    (rax_writes (emitted s (vmcall_vmexit_handler env vcpu s).2) = [] ∧
      ud_count (emitted s (vmcall_vmexit_handler env vcpu s).2) = 1 ↔
      ¬ (env.is_sos_vm vcpu.vm = true ∨
      env.get_gpreg vcpu .CPU_REG_R8 s.world = env.hc_id .HC_WORLD_SWITCH ∨
      env.get_gpreg vcpu .CPU_REG_R8 s.world = env.hc_id .HC_INITIALIZE_TRUSTY ∨
      env.get_gpreg vcpu .CPU_REG_R8 s.world =
        env.hc_id .HC_SAVE_RESTORE_SWORLD_CTX)) := by
  by_cases hgate : env.is_sos_vm vcpu.vm = true ∨
      env.get_gpreg vcpu .CPU_REG_R8 s.world = env.hc_id .HC_WORLD_SWITCH ∨
      env.get_gpreg vcpu .CPU_REG_R8 s.world = env.hc_id .HC_INITIALIZE_TRUSTY ∨
      env.get_gpreg vcpu .CPU_REG_R8 s.world = env.hc_id .HC_SAVE_RESTORE_SWORLD_CTX
  · simp only [hgate, iff_true, not_true_eq_false, iff_false]
    rcases hgate with h | h | h | h <;>
      simp [vmcall_vmexit_handler, vcpu_get_gpreg, vcpu_set_gpreg, pr_err, TRACE_2L, emit,
        emitted, ud_count, handler_calls, lock_obtains, lock_releases, rax_writes,
        h, hring]
  · simp only [hgate, iff_false, not_false_eq_true, iff_true]
    simp only [not_or, Bool.not_eq_true] at hgate
    obtain ⟨hvm, hws, hit, hsr⟩ := hgate
    simp [vmcall_vmexit_handler, vcpu_get_gpreg, vcpu_inject_ud, pr_err, TRACE_2L, emit,
      emitted, ud_count, handler_calls, lock_obtains, lock_releases, rax_writes,
      hvm, hws, hit, hsr]

/-- C3 amended, at a concrete input: the SOS VM issues `HC_GET_API_VERSION`
from ring 3. -/
theorem C3_nonzero_ring_no_handler_witness :
    demo_env.is_hypercall_from_ring0 (demo_sys 0x80000000 0 0 3).world = false ∧
    handler_calls (emitted (demo_sys 0x80000000 0 0 3)
      (vmcall_vmexit_handler demo_env sos_vcpu (demo_sys 0x80000000 0 0 3)).2) = [] ∧
    rax_writes (emitted (demo_sys 0x80000000 0 0 3)
      (vmcall_vmexit_handler demo_env sos_vcpu (demo_sys 0x80000000 0 0 3)).2) =
      [to_uint64 (-(demo_env.EACCES : Int))] :=
  have h := C3_nonzero_ring_no_handler demo_env sos_vcpu (demo_sys 0x80000000 0 0 3)
    (by decide)
  ⟨by decide, h.1, (h.2.2.1.mpr (Or.inl (by decide))).1⟩

/-! ## The dispatcher: VM-id validation and locking -/

/-- C4: for every operation that takes a VM id and every param1 whose low 16
bits are at least `CONFIG_MAX_VM_NUM`, `dispatch_hypercall` returns `-1`; the
only calls it makes are the three register reads, so no handler is invoked, the
lock is neither obtained nor released, and the world is unchanged.  The case
constants are pairwise distinct, as C requires of `case` labels. -/
theorem C4_invalid_vm_id_rejected (env : Env W) (hinj : Function.Injective env.hc_id)
    (vcpu : acrn_vcpu) (s : Sys W) (l : HcCase) (hl : l ∈ vmid_ops)
    (hid : env.get_gpreg vcpu .CPU_REG_R8 s.world = env.hc_id l)
    (hbad : env.CONFIG_MAX_VM_NUM ≤ env.get_gpreg vcpu .CPU_REG_RDI s.world % 2 ^ 16) :
    (dispatch_hypercall env vcpu s).1 = -1 ∧
    emitted s (dispatch_hypercall env vcpu s).2 =
      [.vcpu_get_gpreg .CPU_REG_R8, .vcpu_get_gpreg .CPU_REG_RDI,
       .vcpu_get_gpreg .CPU_REG_RSI] ∧
    handler_calls (emitted s (dispatch_hypercall env vcpu s).2) = [] ∧
    lock_obtains (emitted s (dispatch_hypercall env vcpu s).2) = 0 ∧
    lock_releases (emitted s (dispatch_hypercall env vcpu s).2) = 0 ∧
    (dispatch_hypercall env vcpu s).2.world = s.world := by
  have hsw := switch_case_hc_id env.hc_id hinj l
  have hnot : ¬ env.get_gpreg vcpu .CPU_REG_RDI s.world % 65536 < env.CONFIG_MAX_VM_NUM := by
    have h := hbad
    norm_num at h
    omega
  simp only [vmid_ops, List.mem_cons, List.mem_singleton, List.not_mem_nil, or_false] at hl
  rcases hl with h | h | h | h | h | h | h | h | h | h | h | h | h | h | h | h | h <;>
    subst h <;>
    simp [dispatch_hypercall, vcpu_get_gpreg, emit, emitted, handler_calls, lock_obtains,
      lock_releases, hid, hsw, hnot]

/-- C4 at the boundary: `HC_CREATE_VCPU` with param1 equal to
`CONFIG_MAX_VM_NUM` (8) gives `-1` and calls no handler. -/
theorem C4_invalid_vm_id_rejected_witness :
    HcCase.HC_CREATE_VCPU ∈ vmid_ops ∧
    demo_env.CONFIG_MAX_VM_NUM ≤
      demo_env.get_gpreg sos_vcpu .CPU_REG_RDI (demo_sys 0x80000014 8 5 0).world % 2 ^ 16 ∧
    (dispatch_hypercall demo_env sos_vcpu (demo_sys 0x80000014 8 5 0)).1 = -1 ∧
    handler_calls (emitted (demo_sys 0x80000014 8 5 0)
      (dispatch_hypercall demo_env sos_vcpu (demo_sys 0x80000014 8 5 0)).2) = [] :=
  have h := C4_invalid_vm_id_rejected demo_env demo_hc_id_injective sos_vcpu
    (demo_sys 0x80000014 8 5 0) .HC_CREATE_VCPU (by decide) (by decide) (by decide)
  ⟨by decide, by decide, h.1, h.2.2.1⟩

/-- C5: for every operation that takes a VM id, when the low 16 bits of param1
are below `CONFIG_MAX_VM_NUM`, `dispatch_hypercall` invokes exactly one
handler, the one of that operation, with `vm_id` equal to param1 mod 2^16, and
returns that handler's status; and whatever param1 is, every handler call the
run makes carries a `vm_id` below `CONFIG_MAX_VM_NUM`. -/
theorem C5_valid_vm_id_forwarded (env : Env W) (hinj : Function.Injective env.hc_id)
    (vcpu : acrn_vcpu) (s : Sys W) (l : HcCase) (hl : l ∈ vmid_ops)
    (hid : env.get_gpreg vcpu .CPU_REG_R8 s.world = env.hc_id l) :
    (env.get_gpreg vcpu .CPU_REG_RDI s.world % 2 ^ 16 < env.CONFIG_MAX_VM_NUM →
      ∃ c, handler_calls (emitted s (dispatch_hypercall env vcpu s).2) = [c] ∧
        c.arm = some l ∧
        c.vm_id? = some (env.get_gpreg vcpu .CPU_REG_RDI s.world % 2 ^ 16) ∧
        (dispatch_hypercall env vcpu s).1 = (env.hcall c s.world).1) ∧
    (∀ c ∈ handler_calls (emitted s (dispatch_hypercall env vcpu s).2),
      ∃ v, c.vm_id? = some v ∧ v < env.CONFIG_MAX_VM_NUM) := by
  have hsw := switch_case_hc_id env.hc_id hinj l
  simp only [vmid_ops, List.mem_cons, List.mem_singleton, List.not_mem_nil, or_false] at hl
  by_cases hv : env.get_gpreg vcpu .CPU_REG_RDI s.world % 65536 < env.CONFIG_MAX_VM_NUM
  · rcases hl with h | h | h | h | h | h | h | h | h | h | h | h | h | h | h | h | h <;>
      subst h <;>
      simp [dispatch_hypercall, vcpu_get_gpreg, hcall, spinlock_obtain, spinlock_release,
        emit, emitted, handler_calls, HandlerCall.arm, HandlerCall.vm_id?, hid, hsw, hv]
  · rcases hl with h | h | h | h | h | h | h | h | h | h | h | h | h | h | h | h | h <;>
      subst h <;>
      simp [dispatch_hypercall, vcpu_get_gpreg, emit, emitted, handler_calls, hid, hsw, hv]

/-- C5 at the boundary: `HC_CREATE_VCPU` with param1 `0x30007`, whose low 16
bits are `CONFIG_MAX_VM_NUM - 1` (7), reaches `hcall_create_vcpu` with VM id 7
and returns its status, 7. -/
theorem C5_valid_vm_id_forwarded_witness :
    HcCase.HC_CREATE_VCPU ∈ vmid_ops ∧
    handler_calls (emitted (demo_sys 0x80000014 0x30007 5 0)
      (dispatch_hypercall demo_env sos_vcpu (demo_sys 0x80000014 0x30007 5 0)).2) =
      [.hcall_create_vcpu sos_vcpu.vm 7 5] ∧
    (dispatch_hypercall demo_env sos_vcpu (demo_sys 0x80000014 0x30007 5 0)).1 = 7 ∧
    ∃ c, handler_calls (emitted (demo_sys 0x80000014 0x30007 5 0)
        (dispatch_hypercall demo_env sos_vcpu (demo_sys 0x80000014 0x30007 5 0)).2) = [c] ∧
      c.arm = some .HC_CREATE_VCPU ∧
      c.vm_id? = some (demo_env.get_gpreg sos_vcpu .CPU_REG_RDI
        (demo_sys 0x80000014 0x30007 5 0).world % 2 ^ 16) ∧
      (dispatch_hypercall demo_env sos_vcpu (demo_sys 0x80000014 0x30007 5 0)).1 =
        (demo_env.hcall c (demo_sys 0x80000014 0x30007 5 0).world).1 :=
  ⟨by decide, by decide, by decide,
   (C5_valid_vm_id_forwarded demo_env demo_hc_id_injective sos_vcpu
     (demo_sys 0x80000014 0x30007 5 0) .HC_CREATE_VCPU (by decide) (by decide)).1
     (by decide)⟩

/-- C6: for a lock-requiring operation whose handler is reached
(`HC_SOS_OFFLINE_CPU` and `HC_CREATE_VM` always, the seven others when the VM
id is valid), the calls `dispatch_hypercall` makes are exactly: the three
register reads, `spinlock_obtain`, one call of that operation's handler,
`spinlock_release`.  The result is the handler's status, whatever it is, and
the world is the one the handler leaves. -/
theorem C6_lock_brackets_handler (env : Env W) (hinj : Function.Injective env.hc_id)
    (vcpu : acrn_vcpu) (s : Sys W) (l : HcCase) (hl : l ∈ lock_ops)
    (hid : env.get_gpreg vcpu .CPU_REG_R8 s.world = env.hc_id l)
    (hreach : l ∈ vmid_ops →
      env.get_gpreg vcpu .CPU_REG_RDI s.world % 2 ^ 16 < env.CONFIG_MAX_VM_NUM) :
    ∃ c, emitted s (dispatch_hypercall env vcpu s).2 =
        [.vcpu_get_gpreg .CPU_REG_R8, .vcpu_get_gpreg .CPU_REG_RDI,
         .vcpu_get_gpreg .CPU_REG_RSI, .spinlock_obtain, .hcall c, .spinlock_release] ∧
      c.arm = some l ∧
      (dispatch_hypercall env vcpu s).1 = (env.hcall c s.world).1 ∧
      (dispatch_hypercall env vcpu s).2.world = (env.hcall c s.world).2 := by
  have hsw := switch_case_hc_id env.hc_id hinj l
  simp only [lock_ops, List.mem_cons, List.mem_singleton, List.not_mem_nil, or_false] at hl
  rcases hl with h | h | h | h | h | h | h | h | h <;>
    subst h <;>
    simp [vmid_ops] at hreach <;>
    simp [dispatch_hypercall, vcpu_get_gpreg, hcall, spinlock_obtain, spinlock_release,
      emit, emitted, HandlerCall.arm, hid, hsw, hreach]

/-- C6 at a concrete input: `HC_DESTROY_VM` of VM 0, whose handler fails with
`-22`; the lock is still released and `-22` is returned. -/
theorem C6_lock_brackets_handler_witness :
    HcCase.HC_DESTROY_VM ∈ lock_ops ∧
    (dispatch_hypercall demo_env sos_vcpu (demo_sys 0x80000011 0 0 0)).1 = -22 ∧
    ∃ c, emitted (demo_sys 0x80000011 0 0 0)
        (dispatch_hypercall demo_env sos_vcpu (demo_sys 0x80000011 0 0 0)).2 =
        [.vcpu_get_gpreg .CPU_REG_R8, .vcpu_get_gpreg .CPU_REG_RDI,
         .vcpu_get_gpreg .CPU_REG_RSI, .spinlock_obtain, .hcall c, .spinlock_release] ∧
      c.arm = some .HC_DESTROY_VM ∧
      (dispatch_hypercall demo_env sos_vcpu (demo_sys 0x80000011 0 0 0)).1 =
        (demo_env.hcall c (demo_sys 0x80000011 0 0 0).world).1 ∧
      (dispatch_hypercall demo_env sos_vcpu (demo_sys 0x80000011 0 0 0)).2.world =
        (demo_env.hcall c (demo_sys 0x80000011 0 0 0).world).2 :=
  ⟨by decide, by decide,
   C6_lock_brackets_handler demo_env demo_hc_id_injective sos_vcpu
     (demo_sys 0x80000011 0 0 0) .HC_DESTROY_VM (by decide) (by decide)
     (fun _ => by decide)⟩

/-- C7: in every run of `dispatch_hypercall` the lock is released as often as
it is obtained, and at most once.  It is obtained exactly when the hypercall
id is that of one of the nine lock-requiring operations and a handler is
invoked; for every id that is not one of those nine it is neither obtained nor
released. -/
theorem C7_lock_iff_lock_op_reached (env : Env W) (hinj : Function.Injective env.hc_id)
    (vcpu : acrn_vcpu) (s : Sys W) :
    lock_obtains (emitted s (dispatch_hypercall env vcpu s).2) =
      lock_releases (emitted s (dispatch_hypercall env vcpu s).2) ∧
    lock_obtains (emitted s (dispatch_hypercall env vcpu s).2) ≤ 1 ∧
    (lock_obtains (emitted s (dispatch_hypercall env vcpu s).2) = 1 ↔
      ∃ l ∈ lock_ops, env.get_gpreg vcpu .CPU_REG_R8 s.world = env.hc_id l ∧
        handler_calls (emitted s (dispatch_hypercall env vcpu s).2) ≠ []) ∧
    ((¬ ∃ l ∈ lock_ops, env.get_gpreg vcpu .CPU_REG_R8 s.world = env.hc_id l) →
      lock_obtains (emitted s (dispatch_hypercall env vcpu s).2) = 0 ∧
      lock_releases (emitted s (dispatch_hypercall env vcpu s).2) = 0) := by
  cases hsw : switch_case env.hc_id (env.get_gpreg vcpu .CPU_REG_R8 s.world) with
  | none =>
    have hno := switch_case_none env.hc_id _ hsw
    simp [dispatch_hypercall, vcpu_get_gpreg, hcall, emit, emitted, handler_calls,
      lock_obtains, lock_releases, hsw, hno]
  | some k =>
    have hk := switch_case_some env.hc_id _ k hsw
    rw [hk] at hsw
    by_cases hv : env.get_gpreg vcpu .CPU_REG_RDI s.world % 65536 < env.CONFIG_MAX_VM_NUM <;>
      cases k <;>
      simp [dispatch_hypercall, vcpu_get_gpreg, hcall, spinlock_obtain, spinlock_release,
        emit, emitted, handler_calls, lock_obtains, lock_releases, lock_ops, hk, hsw, hv,
        hinj.eq_iff]

/-- C7 at concrete inputs: `HC_SET_IRQLINE` with a valid VM id runs its handler
without the lock. -/
theorem C7_lock_iff_lock_op_reached_witness :
    Function.Injective demo_env.hc_id ∧
    handler_calls (emitted (demo_sys 0x80000025 1 0 0)
      (dispatch_hypercall demo_env sos_vcpu (demo_sys 0x80000025 1 0 0)).2) =
      [.hcall_set_irqline sos_vcpu.vm 1 0] ∧
    lock_obtains (emitted (demo_sys 0x80000025 1 0 0)
      (dispatch_hypercall demo_env sos_vcpu (demo_sys 0x80000025 1 0 0)).2) =
    lock_releases (emitted (demo_sys 0x80000025 1 0 0)
      (dispatch_hypercall demo_env sos_vcpu (demo_sys 0x80000025 1 0 0)).2) ∧
    lock_obtains (emitted (demo_sys 0x80000025 1 0 0)
      (dispatch_hypercall demo_env sos_vcpu (demo_sys 0x80000025 1 0 0)).2) = 0 :=
  have h := C7_lock_iff_lock_op_reached demo_env demo_hc_id_injective sos_vcpu
    (demo_sys 0x80000025 1 0 0)
  ⟨demo_hc_id_injective, by decide, h.1, (h.2.2.2 (by decide)).1⟩

/-! ## The gate: dispatch -/

/-- C8: for a call that passes both gate rules (SOS VM or secure-world id, and
ring 0), `vmcall_vmexit_handler` is: read R8, run `dispatch_hypercall` once,
write its status, cast to `uint64_t`, to RAX, trace, return 0.  No #UD is
injected and RAX is written exactly once; and whenever a handler was invoked
it is the only one and the value written is the cast of that handler's
status. -/
theorem C8_dispatch_status_to_rax (env : Env W) (vcpu : acrn_vcpu) (s : Sys W)
    (hgate : env.is_sos_vm vcpu.vm = true ∨
      env.get_gpreg vcpu .CPU_REG_R8 s.world = env.hc_id .HC_WORLD_SWITCH ∨
      env.get_gpreg vcpu .CPU_REG_R8 s.world = env.hc_id .HC_INITIALIZE_TRUSTY ∨
      env.get_gpreg vcpu .CPU_REG_R8 s.world = env.hc_id .HC_SAVE_RESTORE_SWORLD_CTX)
    (hring : env.is_hypercall_from_ring0 s.world = true) :
    vmcall_vmexit_handler env vcpu s =
      (0, TRACE_2L .TRACE_VMEXIT_VMCALL vcpu.vm.vm_id
        (env.get_gpreg vcpu .CPU_REG_R8 s.world)
        (vcpu_set_gpreg env vcpu .CPU_REG_RAX
          (to_uint64
            (dispatch_hypercall env vcpu (vcpu_get_gpreg env vcpu .CPU_REG_R8 s).2).1)
          (dispatch_hypercall env vcpu (vcpu_get_gpreg env vcpu .CPU_REG_R8 s).2).2)) ∧
    emitted s (vmcall_vmexit_handler env vcpu s).2 =
      .vcpu_get_gpreg .CPU_REG_R8 ::
        (emitted (vcpu_get_gpreg env vcpu .CPU_REG_R8 s).2
          (dispatch_hypercall env vcpu (vcpu_get_gpreg env vcpu .CPU_REG_R8 s).2).2 ++
        [.vcpu_set_gpreg .CPU_REG_RAX
           (to_uint64
             (dispatch_hypercall env vcpu (vcpu_get_gpreg env vcpu .CPU_REG_R8 s).2).1),
         .TRACE_2L .TRACE_VMEXIT_VMCALL vcpu.vm.vm_id
           (env.get_gpreg vcpu .CPU_REG_R8 s.world)]) ∧
    ud_count (emitted s (vmcall_vmexit_handler env vcpu s).2) = 0 ∧
    rax_writes (emitted s (vmcall_vmexit_handler env vcpu s).2) =
      [to_uint64
        (dispatch_hypercall env vcpu (vcpu_get_gpreg env vcpu .CPU_REG_R8 s).2).1] ∧
    (∀ c ∈ handler_calls (emitted s (vmcall_vmexit_handler env vcpu s).2),
      handler_calls (emitted s (vmcall_vmexit_handler env vcpu s).2) = [c] ∧
      rax_writes (emitted s (vmcall_vmexit_handler env vcpu s).2) =
        [to_uint64 (env.hcall c s.world).1]) := by
  have hcond : (!env.is_sos_vm vcpu.vm &&
      (env.get_gpreg vcpu .CPU_REG_R8 s.world != env.hc_id .HC_WORLD_SWITCH) &&
      (env.get_gpreg vcpu .CPU_REG_R8 s.world != env.hc_id .HC_INITIALIZE_TRUSTY) &&
      (env.get_gpreg vcpu .CPU_REG_R8 s.world != env.hc_id .HC_SAVE_RESTORE_SWORLD_CTX)) =
      false := by
    rcases hgate with h | h | h | h <;> simp [h]
  have hfun : vmcall_vmexit_handler env vcpu s =
      (0, TRACE_2L .TRACE_VMEXIT_VMCALL vcpu.vm.vm_id
        (env.get_gpreg vcpu .CPU_REG_R8 s.world)
        (vcpu_set_gpreg env vcpu .CPU_REG_RAX
          (to_uint64
            (dispatch_hypercall env vcpu (vcpu_get_gpreg env vcpu .CPU_REG_R8 s).2).1)
          (dispatch_hypercall env vcpu (vcpu_get_gpreg env vcpu .CPU_REG_R8 s).2).2)) := by
    simp only [vmcall_vmexit_handler]
    simp [vcpu_get_gpreg, emit, hcond, hring]
  have hlog := dispatch_hypercall_log env vcpu (vcpu_get_gpreg env vcpu .CPU_REG_R8 s).2
  have hshape := dispatch_hypercall_shape env vcpu (vcpu_get_gpreg env vcpu .CPU_REG_R8 s).2
  have hem : emitted s (vmcall_vmexit_handler env vcpu s).2 =
      .vcpu_get_gpreg .CPU_REG_R8 ::
        (emitted (vcpu_get_gpreg env vcpu .CPU_REG_R8 s).2
          (dispatch_hypercall env vcpu (vcpu_get_gpreg env vcpu .CPU_REG_R8 s).2).2 ++
        [.vcpu_set_gpreg .CPU_REG_RAX
           (to_uint64
             (dispatch_hypercall env vcpu (vcpu_get_gpreg env vcpu .CPU_REG_R8 s).2).1),
         .TRACE_2L .TRACE_VMEXIT_VMCALL vcpu.vm.vm_id
           (env.get_gpreg vcpu .CPU_REG_R8 s.world)]) := by
    rw [hfun]
    simp only [emitted, TRACE_2L, vcpu_set_gpreg, emit]
    rw [hlog]
    simp [vcpu_get_gpreg, emit, emitted]
  refine ⟨hfun, hem, ?_, ?_, ?_⟩
  · rw [hem]
    rcases hshape with ⟨h, _⟩ | ⟨c, h | h, _, _⟩ <;> simp [h, ud_count]
  · rw [hem]
    rcases hshape with ⟨h, _⟩ | ⟨c, h | h, _, _⟩ <;> simp [h, rax_writes]
  · rw [hem]
    have hw : (vcpu_get_gpreg env vcpu .CPU_REG_R8 s).2.world = s.world := rfl
    rcases hshape with ⟨h, _⟩ | ⟨c, h | h, hr, _⟩
    · simp [h, handler_calls]
    · simp [h, rax_writes, handler_calls, hr, hw]
    · simp [h, rax_writes, handler_calls, hr, hw]

/-- C8 at a concrete input: the SOS VM issues `HC_START_VM` for VM 0 from ring
0; the handler fails with `-22` and RAX receives `2 ^ 64 - 22`. -/
theorem C8_dispatch_status_to_rax_witness :
    demo_env.is_hypercall_from_ring0 (demo_sys 0x80000012 0 0 0).world = true ∧
    handler_calls (emitted (demo_sys 0x80000012 0 0 0)
      (vmcall_vmexit_handler demo_env sos_vcpu (demo_sys 0x80000012 0 0 0)).2) =
      [.hcall_start_vm 0] ∧
    (dispatch_hypercall demo_env sos_vcpu
      (vcpu_get_gpreg demo_env sos_vcpu .CPU_REG_R8 (demo_sys 0x80000012 0 0 0)).2).1 =
      -22 ∧
    to_uint64 (-22) = 2 ^ 64 - 22 ∧
    rax_writes (emitted (demo_sys 0x80000012 0 0 0)
      (vmcall_vmexit_handler demo_env sos_vcpu (demo_sys 0x80000012 0 0 0)).2) =
      [to_uint64 (dispatch_hypercall demo_env sos_vcpu
        (vcpu_get_gpreg demo_env sos_vcpu .CPU_REG_R8 (demo_sys 0x80000012 0 0 0)).2).1] :=
  ⟨by decide, by decide, by decide, by decide,
   (C8_dispatch_status_to_rax demo_env sos_vcpu (demo_sys 0x80000012 0 0 0)
     (Or.inl (by decide)) (by decide)).2.2.2.1⟩

/-- C10: for a hypercall id that is the constant of no `case` label, and any
param1 and param2, the calls `dispatch_hypercall` makes are exactly the three
register reads and one call `hcall_debug(vm, param1, param2, hypcall_id)` with
the raw register values; the result is what `hcall_debug` returns, the lock is
untouched, and param1 is not checked against `CONFIG_MAX_VM_NUM`. -/
theorem C10_unmatched_id_to_hcall_debug (env : Env W) (vcpu : acrn_vcpu) (s : Sys W)
    (hdef : ∀ l, env.get_gpreg vcpu .CPU_REG_R8 s.world ≠ env.hc_id l) :
    emitted s (dispatch_hypercall env vcpu s).2 =
      [.vcpu_get_gpreg .CPU_REG_R8, .vcpu_get_gpreg .CPU_REG_RDI,
       .vcpu_get_gpreg .CPU_REG_RSI,
       .hcall (.hcall_debug vcpu.vm (env.get_gpreg vcpu .CPU_REG_RDI s.world)
         (env.get_gpreg vcpu .CPU_REG_RSI s.world)
         (env.get_gpreg vcpu .CPU_REG_R8 s.world))] ∧
    handler_calls (emitted s (dispatch_hypercall env vcpu s).2) =
      [.hcall_debug vcpu.vm (env.get_gpreg vcpu .CPU_REG_RDI s.world)
         (env.get_gpreg vcpu .CPU_REG_RSI s.world)
         (env.get_gpreg vcpu .CPU_REG_R8 s.world)] ∧
    (dispatch_hypercall env vcpu s).1 =
      (env.hcall (.hcall_debug vcpu.vm (env.get_gpreg vcpu .CPU_REG_RDI s.world)
         (env.get_gpreg vcpu .CPU_REG_RSI s.world)
         (env.get_gpreg vcpu .CPU_REG_R8 s.world)) s.world).1 ∧
    lock_obtains (emitted s (dispatch_hypercall env vcpu s).2) = 0 ∧
    lock_releases (emitted s (dispatch_hypercall env vcpu s).2) = 0 ∧
    (dispatch_hypercall env vcpu s).2.world =
      (env.hcall (.hcall_debug vcpu.vm (env.get_gpreg vcpu .CPU_REG_RDI s.world)
         (env.get_gpreg vcpu .CPU_REG_RSI s.world)
         (env.get_gpreg vcpu .CPU_REG_R8 s.world)) s.world).2 := by
  have hsw := switch_case_default env.hc_id _ hdef
  simp [dispatch_hypercall, vcpu_get_gpreg, hcall, emit, emitted, handler_calls,
    lock_obtains, lock_releases, hsw]

/-- C10 at a concrete input: the id `0x12345` with param1 `0xffff`, whose low
16 bits are no valid VM id, reaches `hcall_debug` with the raw values. -/
theorem C10_unmatched_id_to_hcall_debug_witness :
    (∀ l, demo_env.get_gpreg sos_vcpu .CPU_REG_R8 (demo_sys 0x12345 0xffff 9 0).world ≠
      demo_env.hc_id l) ∧
    handler_calls (emitted (demo_sys 0x12345 0xffff 9 0)
      (dispatch_hypercall demo_env sos_vcpu (demo_sys 0x12345 0xffff 9 0)).2) =
      [.hcall_debug sos_vcpu.vm 0xffff 9 0x12345] ∧
    (dispatch_hypercall demo_env sos_vcpu (demo_sys 0x12345 0xffff 9 0)).1 = -1 ∧
    lock_obtains (emitted (demo_sys 0x12345 0xffff 9 0)
      (dispatch_hypercall demo_env sos_vcpu (demo_sys 0x12345 0xffff 9 0)).2) = 0 :=
  have h := C10_unmatched_id_to_hcall_debug demo_env sos_vcpu (demo_sys 0x12345 0xffff 9 0)
    (by decide)
  ⟨by decide, h.2.1, by decide, h.2.2.2.1⟩

/-! ## Unknown ids, the stub, and operations without a VM id -/

/-- C11 as stated fails: VM 2 issues the unknown id `0x12345` from ring 0; the
first gate rule rejects the call with #UD and `hcall_debug` is not invoked. -/
theorem C11_counterexample :
    (∀ l, demo_env.get_gpreg uos_vcpu .CPU_REG_R8 (demo_sys 0x12345 0 0 0).world ≠
      demo_env.hc_id l) ∧
    demo_env.is_hypercall_from_ring0 (demo_sys 0x12345 0 0 0).world = true ∧
    ud_count (emitted (demo_sys 0x12345 0 0 0)
      (vmcall_vmexit_handler demo_env uos_vcpu (demo_sys 0x12345 0 0 0)).2) = 1 ∧
    handler_calls (emitted (demo_sys 0x12345 0 0 0)
      (vmcall_vmexit_handler demo_env uos_vcpu (demo_sys 0x12345 0 0 0)).2) = [] := by
  decide

/-- C11, amended: for a hypercall id that is the constant of no `case` label,
a call from the SOS VM is not faulted, whatever the ring: no #UD is injected;
and from ring 0 it is routed to `hcall_debug` with the raw register values and
its status is written to RAX.  The same call from a VM that is not the SOS VM
is rejected by the first gate rule, whatever the ring: #UD is injected once,
no handler is invoked and RAX is not written. -/
theorem C11_unknown_id_by_vm_class (env : Env W) (vcpu : acrn_vcpu) (s : Sys W)
    (hdef : ∀ l, env.get_gpreg vcpu .CPU_REG_R8 s.world ≠ env.hc_id l) :
    (env.is_sos_vm vcpu.vm = true →
      ud_count (emitted s (vmcall_vmexit_handler env vcpu s).2) = 0 ∧
      (env.is_hypercall_from_ring0 s.world = true →
        emitted s (vmcall_vmexit_handler env vcpu s).2 =
          [.vcpu_get_gpreg .CPU_REG_R8, .vcpu_get_gpreg .CPU_REG_R8,
           .vcpu_get_gpreg .CPU_REG_RDI, .vcpu_get_gpreg .CPU_REG_RSI,
           .hcall (.hcall_debug vcpu.vm (env.get_gpreg vcpu .CPU_REG_RDI s.world)
             (env.get_gpreg vcpu .CPU_REG_RSI s.world)
             (env.get_gpreg vcpu .CPU_REG_R8 s.world)),
           .vcpu_set_gpreg .CPU_REG_RAX (to_uint64
             (env.hcall (.hcall_debug vcpu.vm (env.get_gpreg vcpu .CPU_REG_RDI s.world)
               (env.get_gpreg vcpu .CPU_REG_RSI s.world)
               (env.get_gpreg vcpu .CPU_REG_R8 s.world)) s.world).1),
           .TRACE_2L .TRACE_VMEXIT_VMCALL vcpu.vm.vm_id
             (env.get_gpreg vcpu .CPU_REG_R8 s.world)])) ∧
    (env.is_sos_vm vcpu.vm = false →
      ud_count (emitted s (vmcall_vmexit_handler env vcpu s).2) = 1 ∧
      handler_calls (emitted s (vmcall_vmexit_handler env vcpu s).2) = [] ∧
      rax_writes (emitted s (vmcall_vmexit_handler env vcpu s).2) = []) := by
  have hsw := switch_case_default env.hc_id _ hdef
  have hws := hdef .HC_WORLD_SWITCH
  have hit := hdef .HC_INITIALIZE_TRUSTY
  have hsr := hdef .HC_SAVE_RESTORE_SWORLD_CTX
  refine ⟨fun hvm => ⟨?_, fun hring => ?_⟩, fun hvm => ?_⟩
  · by_cases hring : env.is_hypercall_from_ring0 s.world = true
    · simp [vmcall_vmexit_handler, dispatch_hypercall, vcpu_get_gpreg, vcpu_set_gpreg, hcall,
        TRACE_2L, emit, emitted, ud_count, hsw, hvm, hring]
    · simp [vmcall_vmexit_handler, vcpu_get_gpreg, vcpu_set_gpreg, pr_err, TRACE_2L, emit,
        emitted, ud_count, hvm, hring]
  · simp [vmcall_vmexit_handler, dispatch_hypercall, vcpu_get_gpreg, vcpu_set_gpreg, hcall,
      TRACE_2L, emit, emitted, hsw, hvm, hring]
  · simp [vmcall_vmexit_handler, vcpu_get_gpreg, vcpu_inject_ud, pr_err, TRACE_2L, emit,
      emitted, ud_count, handler_calls, rax_writes, hvm, hws, hit, hsr]

/-- C11 amended, at concrete inputs: the SOS VM issues the unknown id
`0x12345` from ring 3 and is not faulted; from ring 0 `hcall_debug` runs,
without a fault. -/
theorem C11_unknown_id_by_vm_class_witness :
    (∀ l, demo_env.get_gpreg sos_vcpu .CPU_REG_R8 (demo_sys 0x12345 1 2 3).world ≠
      demo_env.hc_id l) ∧
    demo_env.is_hypercall_from_ring0 (demo_sys 0x12345 1 2 3).world = false ∧
    ud_count (emitted (demo_sys 0x12345 1 2 3)
      (vmcall_vmexit_handler demo_env sos_vcpu (demo_sys 0x12345 1 2 3)).2) = 0 ∧
    handler_calls (emitted (demo_sys 0x12345 1 2 0)
      (vmcall_vmexit_handler demo_env sos_vcpu (demo_sys 0x12345 1 2 0)).2) =
      [.hcall_debug sos_vcpu.vm 1 2 0x12345] ∧
    ud_count (emitted (demo_sys 0x12345 1 2 0)
      (vmcall_vmexit_handler demo_env sos_vcpu (demo_sys 0x12345 1 2 0)).2) = 0 :=
  ⟨by decide, by decide,
   ((C11_unknown_id_by_vm_class demo_env sos_vcpu (demo_sys 0x12345 1 2 3) (by decide)).1 (by decide)).1,
   by decide,
   ((C11_unknown_id_by_vm_class demo_env sos_vcpu (demo_sys 0x12345 1 2 0) (by decide)).1 (by decide)).1⟩

/-- C12: for `HC_VM_PCI_MSIX_REMAP` and every param1 and param2,
`dispatch_hypercall` returns 0; the only calls it makes are the three register
reads, so no handler is invoked, the lock is neither obtained nor released,
the world is unchanged, and param1 is not checked against
`CONFIG_MAX_VM_NUM`. -/
theorem C12_msix_remap_is_a_stub (env : Env W) (hinj : Function.Injective env.hc_id)
    (vcpu : acrn_vcpu) (s : Sys W)
    (hid : env.get_gpreg vcpu .CPU_REG_R8 s.world = env.hc_id .HC_VM_PCI_MSIX_REMAP) :
    (dispatch_hypercall env vcpu s).1 = 0 ∧
    emitted s (dispatch_hypercall env vcpu s).2 =
      [.vcpu_get_gpreg .CPU_REG_R8, .vcpu_get_gpreg .CPU_REG_RDI,
       .vcpu_get_gpreg .CPU_REG_RSI] ∧
    handler_calls (emitted s (dispatch_hypercall env vcpu s).2) = [] ∧
    lock_obtains (emitted s (dispatch_hypercall env vcpu s).2) = 0 ∧
    lock_releases (emitted s (dispatch_hypercall env vcpu s).2) = 0 ∧
    (dispatch_hypercall env vcpu s).2.world = s.world := by
  have hsw := switch_case_hc_id env.hc_id hinj .HC_VM_PCI_MSIX_REMAP
  simp [dispatch_hypercall, vcpu_get_gpreg, emit, emitted, handler_calls, lock_obtains,
    lock_releases, hid, hsw]

/-- C12 at a concrete input: param1 `0xffff`, whose low 16 bits are no valid
VM id, still gives 0. -/
theorem C12_msix_remap_is_a_stub_witness :
    demo_env.get_gpreg sos_vcpu .CPU_REG_R8 (demo_sys 0x80000052 0xffff 3 0).world =
      demo_env.hc_id .HC_VM_PCI_MSIX_REMAP ∧
    (dispatch_hypercall demo_env sos_vcpu (demo_sys 0x80000052 0xffff 3 0)).1 = 0 ∧
    handler_calls (emitted (demo_sys 0x80000052 0xffff 3 0)
      (dispatch_hypercall demo_env sos_vcpu (demo_sys 0x80000052 0xffff 3 0)).2) = [] :=
  have h := C12_msix_remap_is_a_stub demo_env demo_hc_id_injective sos_vcpu
    (demo_sys 0x80000052 0xffff 3 0) (by decide)
  ⟨by decide, h.1, h.2.2.1⟩

/-- C13: for each operation of the no-lock, no-VM-id class, and for
`HC_CREATE_VM` and `HC_SOS_OFFLINE_CPU`, whatever param1 is (no comparison
with `CONFIG_MAX_VM_NUM` is made), `dispatch_hypercall` invokes exactly one
handler, the one of the operation with the raw register values as arguments,
and returns its status.  For the first class the calls made are the three
register reads and the handler call, without the lock; for the two locked
operations the handler call is bracketed by obtaining and releasing the
lock. -/
theorem C13_no_vm_id_validation (env : Env W) (hinj : Function.Injective env.hc_id)
    (vcpu : acrn_vcpu) (s : Sys W) (l : HcCase) (hl : l ∈ plain_ops ++ lock_only_ops)
    (hid : env.get_gpreg vcpu .CPU_REG_R8 s.world = env.hc_id l) :
    ∃ c, handler_calls (emitted s (dispatch_hypercall env vcpu s).2) = [c] ∧
      (l = .HC_GET_API_VERSION ∧
          c = .hcall_get_api_version vcpu.vm (env.get_gpreg vcpu .CPU_REG_RDI s.world) ∨
        l = .HC_GET_PLATFORM_INFO ∧
          c = .hcall_get_platform_info vcpu.vm (env.get_gpreg vcpu .CPU_REG_RDI s.world) ∨
        l = .HC_SET_CALLBACK_VECTOR ∧
          c = .hcall_set_callback_vector vcpu.vm (env.get_gpreg vcpu .CPU_REG_RDI s.world) ∨
        l = .HC_VM_SET_MEMORY_REGIONS ∧
          c = .hcall_set_vm_memory_regions vcpu.vm
            (env.get_gpreg vcpu .CPU_REG_RDI s.world) ∨
        l = .HC_WORLD_SWITCH ∧ c = .hcall_world_switch vcpu ∨
        l = .HC_INITIALIZE_TRUSTY ∧
          c = .hcall_initialize_trusty vcpu (env.get_gpreg vcpu .CPU_REG_RDI s.world) ∨
        l = .HC_PM_GET_CPU_STATE ∧
          c = .hcall_get_cpu_pm_state vcpu.vm (env.get_gpreg vcpu .CPU_REG_RDI s.world)
            (env.get_gpreg vcpu .CPU_REG_RSI s.world) ∨
        l = .HC_SAVE_RESTORE_SWORLD_CTX ∧ c = .hcall_save_restore_sworld_ctx vcpu ∨
        l = .HC_CREATE_VM ∧
          c = .hcall_create_vm vcpu.vm (env.get_gpreg vcpu .CPU_REG_RDI s.world) ∨
        l = .HC_SOS_OFFLINE_CPU ∧
          c = .hcall_sos_offline_cpu vcpu.vm (env.get_gpreg vcpu .CPU_REG_RDI s.world)) ∧
      (dispatch_hypercall env vcpu s).1 = (env.hcall c s.world).1 ∧
      (l ∈ plain_ops →
        emitted s (dispatch_hypercall env vcpu s).2 =
          [.vcpu_get_gpreg .CPU_REG_R8, .vcpu_get_gpreg .CPU_REG_RDI,
           .vcpu_get_gpreg .CPU_REG_RSI, .hcall c] ∧
        lock_obtains (emitted s (dispatch_hypercall env vcpu s).2) = 0) ∧
      (l ∈ lock_only_ops →
        emitted s (dispatch_hypercall env vcpu s).2 =
          [.vcpu_get_gpreg .CPU_REG_R8, .vcpu_get_gpreg .CPU_REG_RDI,
           .vcpu_get_gpreg .CPU_REG_RSI, .spinlock_obtain, .hcall c,
           .spinlock_release]) := by
  have hsw := switch_case_hc_id env.hc_id hinj l
  simp only [plain_ops, lock_only_ops, List.cons_append, List.nil_append, List.mem_cons,
    List.mem_singleton, List.not_mem_nil, or_false] at hl
  rcases hl with h | h | h | h | h | h | h | h | h | h <;>
    subst h <;>
    simp [dispatch_hypercall, vcpu_get_gpreg, hcall, spinlock_obtain, spinlock_release,
      emit, emitted, handler_calls, lock_obtains, plain_ops, lock_only_ops, hid, hsw]

/-- C13 at a concrete input: `HC_GET_API_VERSION` with param1 `0xffff`, whose
low 16 bits are no valid VM id, reaches its handler with the raw value. -/
theorem C13_no_vm_id_validation_witness :
    HcCase.HC_GET_API_VERSION ∈ plain_ops ++ lock_only_ops ∧
    handler_calls (emitted (demo_sys 0x80000000 0xffff 0 0)
      (dispatch_hypercall demo_env sos_vcpu (demo_sys 0x80000000 0xffff 0 0)).2) =
      [.hcall_get_api_version sos_vcpu.vm 0xffff] ∧
    ∃ c, handler_calls (emitted (demo_sys 0x80000000 0xffff 0 0)
        (dispatch_hypercall demo_env sos_vcpu (demo_sys 0x80000000 0xffff 0 0)).2) = [c] ∧
      (dispatch_hypercall demo_env sos_vcpu (demo_sys 0x80000000 0xffff 0 0)).1 =
        (demo_env.hcall c (demo_sys 0x80000000 0xffff 0 0).world).1 :=
  have h := C13_no_vm_id_validation demo_env demo_hc_id_injective sos_vcpu
    (demo_sys 0x80000000 0xffff 0 0) .HC_GET_API_VERSION (by decide) (by decide)
  ⟨by decide, by decide, h.elim fun c hc => ⟨c, hc.1, hc.2.2.1⟩⟩

/-! ## The gate: trace, return value, end-to-end -/

/-- C14: on every path of `vmcall_vmexit_handler` (fault, soft error,
dispatch) exactly one trace record is emitted; it is `TRACE_VMEXIT_VMCALL`
with the issuing VM's `vm_id` and the hypercall id read from R8, and it is the
last call made: the calls before it hold no trace record and hold either the
one #UD injection or the one RAX write of the path. -/
theorem C14_trace_record_once_and_last (env : Env W) (vcpu : acrn_vcpu) (s : Sys W) :
    trace_records (emitted s (vmcall_vmexit_handler env vcpu s).2) =
      [(.TRACE_VMEXIT_VMCALL, vcpu.vm.vm_id, env.get_gpreg vcpu .CPU_REG_R8 s.world)] ∧
    ∃ pre, emitted s (vmcall_vmexit_handler env vcpu s).2 =
        pre ++ [.TRACE_2L .TRACE_VMEXIT_VMCALL vcpu.vm.vm_id
          (env.get_gpreg vcpu .CPU_REG_R8 s.world)] ∧
      trace_records pre = [] ∧
      (ud_count pre = 1 ∧ rax_writes pre = [] ∨
        ud_count pre = 0 ∧ (rax_writes pre).length = 1) := by
  have hshape := dispatch_hypercall_shape env vcpu (vcpu_get_gpreg env vcpu .CPU_REG_R8 s).2
  rcases vmcall_vmexit_handler_paths env vcpu s with ⟨_, h⟩ | ⟨_, h⟩ | ⟨_, h⟩
  · rw [h]
    refine ⟨by simp [trace_records], [.vcpu_get_gpreg .CPU_REG_R8, .vcpu_inject_ud,
      .pr_err (.only_from_sos_vm (env.get_gpreg vcpu .CPU_REG_R8 s.world))], ?_⟩
    simp [trace_records, ud_count, rax_writes]
  · rw [h]
    refine ⟨by simp [trace_records], [.vcpu_get_gpreg .CPU_REG_R8, .pr_err .only_from_ring0,
      .vcpu_set_gpreg .CPU_REG_RAX (to_uint64 (-(env.EACCES : Int)))], ?_⟩
    simp [trace_records, ud_count, rax_writes]
  · rw [h]
    refine ⟨?_, .vcpu_get_gpreg .CPU_REG_R8 ::
      (emitted (vcpu_get_gpreg env vcpu .CPU_REG_R8 s).2
          (dispatch_hypercall env vcpu (vcpu_get_gpreg env vcpu .CPU_REG_R8 s).2).2 ++
        [.vcpu_set_gpreg .CPU_REG_RAX (to_uint64
          (dispatch_hypercall env vcpu (vcpu_get_gpreg env vcpu .CPU_REG_R8 s).2).1)]), ?_⟩
    · rcases hshape with ⟨e, _⟩ | ⟨c, e | e, _, _⟩ <;> simp [e, trace_records]
    · rcases hshape with ⟨e, _⟩ | ⟨c, e | e, _, _⟩ <;>
        simp [e, trace_records, ud_count, rax_writes]

/-- C15: `vmcall_vmexit_handler` returns 0 for every environment, vCPU and
state, whatever the handlers answer; the outcome reaches the guest through
exactly one channel: one #UD injection and no RAX write, or no #UD and one RAX
write, of `-EACCES` or of the status of `dispatch_hypercall`. -/
theorem C15_handler_returns_zero (env : Env W) (vcpu : acrn_vcpu) (s : Sys W) :
    (vmcall_vmexit_handler env vcpu s).1 = 0 ∧
    (ud_count (emitted s (vmcall_vmexit_handler env vcpu s).2) = 1 ∧
        rax_writes (emitted s (vmcall_vmexit_handler env vcpu s).2) = [] ∨
      ud_count (emitted s (vmcall_vmexit_handler env vcpu s).2) = 0 ∧
        (rax_writes (emitted s (vmcall_vmexit_handler env vcpu s).2) =
            [to_uint64 (-(env.EACCES : Int))] ∨
          rax_writes (emitted s (vmcall_vmexit_handler env vcpu s).2) =
            [to_uint64 (dispatch_hypercall env vcpu
              (vcpu_get_gpreg env vcpu .CPU_REG_R8 s).2).1])) := by
  have hshape := dispatch_hypercall_shape env vcpu (vcpu_get_gpreg env vcpu .CPU_REG_R8 s).2
  refine ⟨by simp [vmcall_vmexit_handler], ?_⟩
  rcases vmcall_vmexit_handler_paths env vcpu s with ⟨_, h⟩ | ⟨_, h⟩ | ⟨_, h⟩
  · rw [h]; simp [ud_count, rax_writes]
  · rw [h]; simp [ud_count, rax_writes]
  · rw [h]
    rcases hshape with ⟨e, _⟩ | ⟨c, e | e, _, _⟩ <;> simp [e, ud_count, rax_writes]

/-- C18: for an operation that takes a VM id, `dispatch_hypercall` depends on
param1 only through its low 16 bits: two runs with the same id and param2,
with param1 values that agree modulo 2^16 and with handlers that answer alike,
make the same calls with the same arguments and give the same result.  In
particular a param1 of 2^16 or more whose low 16 bits are below
`CONFIG_MAX_VM_NUM` is accepted, and the handler receives the low 16 bits. -/
theorem C18_param1_low16_only (env : Env W) (hinj : Function.Injective env.hc_id)
    (vcpu : acrn_vcpu) (s t : Sys W) (l : HcCase) (hl : l ∈ vmid_ops)
    (hid_s : env.get_gpreg vcpu .CPU_REG_R8 s.world = env.hc_id l)
    (hid_t : env.get_gpreg vcpu .CPU_REG_R8 t.world = env.hc_id l)
    (hp2 : env.get_gpreg vcpu .CPU_REG_RSI s.world = env.get_gpreg vcpu .CPU_REG_RSI t.world)
    (hp1 : env.get_gpreg vcpu .CPU_REG_RDI s.world % 2 ^ 16 =
      env.get_gpreg vcpu .CPU_REG_RDI t.world % 2 ^ 16)
    (hh : ∀ c, (env.hcall c s.world).1 = (env.hcall c t.world).1) :
    emitted s (dispatch_hypercall env vcpu s).2 =
      emitted t (dispatch_hypercall env vcpu t).2 ∧
    handler_calls (emitted s (dispatch_hypercall env vcpu s).2) =
      handler_calls (emitted t (dispatch_hypercall env vcpu t).2) ∧
    (dispatch_hypercall env vcpu s).1 = (dispatch_hypercall env vcpu t).1 ∧
    (2 ^ 16 ≤ env.get_gpreg vcpu .CPU_REG_RDI s.world →
      env.get_gpreg vcpu .CPU_REG_RDI s.world % 2 ^ 16 < env.CONFIG_MAX_VM_NUM →
      ∃ c, handler_calls (emitted s (dispatch_hypercall env vcpu s).2) = [c] ∧
        c.vm_id? = some (env.get_gpreg vcpu .CPU_REG_RDI s.world % 2 ^ 16)) := by
  have hsw := switch_case_hc_id env.hc_id hinj l
  have hp1n : env.get_gpreg vcpu .CPU_REG_RDI s.world % 65536 =
      env.get_gpreg vcpu .CPU_REG_RDI t.world % 65536 := by
    have h := hp1
    norm_num at h
    exact h
  simp only [vmid_ops, List.mem_cons, List.mem_singleton, List.not_mem_nil, or_false] at hl
  by_cases hv : env.get_gpreg vcpu .CPU_REG_RDI t.world % 65536 < env.CONFIG_MAX_VM_NUM
  · rcases hl with h | h | h | h | h | h | h | h | h | h | h | h | h | h | h | h | h <;>
      subst h <;>
      simp [dispatch_hypercall, vcpu_get_gpreg, hcall, spinlock_obtain, spinlock_release,
        emit, emitted, handler_calls, HandlerCall.vm_id?, hid_s, hid_t, hsw, hv, hp1n, hp2,
        hh]
  · rcases hl with h | h | h | h | h | h | h | h | h | h | h | h | h | h | h | h | h <;>
      subst h <;>
      simp [dispatch_hypercall, vcpu_get_gpreg, emit, emitted, handler_calls, hid_s, hid_t,
        hsw, hv, hp1n]

/-- C18 at a concrete input: `HC_CREATE_VCPU` with param1 `0x10000` and with
param1 0 make the same calls; `0x10000` is accepted as VM id 0. -/
theorem C18_param1_low16_only_witness :
    HcCase.HC_CREATE_VCPU ∈ vmid_ops ∧
    demo_env.get_gpreg sos_vcpu .CPU_REG_RDI (demo_sys 0x80000014 0x10000 5 0).world % 2 ^ 16 =
      demo_env.get_gpreg sos_vcpu .CPU_REG_RDI (demo_sys 0x80000014 0 5 0).world % 2 ^ 16 ∧
    handler_calls (emitted (demo_sys 0x80000014 0x10000 5 0)
      (dispatch_hypercall demo_env sos_vcpu (demo_sys 0x80000014 0x10000 5 0)).2) =
      [.hcall_create_vcpu sos_vcpu.vm 0 5] ∧
    emitted (demo_sys 0x80000014 0x10000 5 0)
      (dispatch_hypercall demo_env sos_vcpu (demo_sys 0x80000014 0x10000 5 0)).2 =
    emitted (demo_sys 0x80000014 0 5 0)
      (dispatch_hypercall demo_env sos_vcpu (demo_sys 0x80000014 0 5 0)).2 ∧
    (dispatch_hypercall demo_env sos_vcpu (demo_sys 0x80000014 0x10000 5 0)).1 =
      (dispatch_hypercall demo_env sos_vcpu (demo_sys 0x80000014 0 5 0)).1 :=
  have h := C18_param1_low16_only demo_env demo_hc_id_injective sos_vcpu
    (demo_sys 0x80000014 0x10000 5 0) (demo_sys 0x80000014 0 5 0) .HC_CREATE_VCPU
    (by decide) (by decide) (by decide) (by decide) (by decide) (fun _ => rfl)
  ⟨by decide, by decide, by decide, h.1, h.2.2.1⟩

/-- C19: every value `vmcall_vmexit_handler` writes to RAX is the sign
extension of the 32-bit status of its path (`-EACCES` on the soft-error path,
the result of `dispatch_hypercall` on the dispatch path): the status is within
the `int32_t` range, RAX is the status modulo 2^64, it reads back as the status
as a signed 64-bit value (so it is non-negative exactly when the status is)
and as a signed 32-bit value after truncation; `-EACCES` is written as
`2^64 - EACCES` and `-1` as `2^64 - 1`.  The handlers called in the run answer
within the `int32_t` range, and `EACCES` is a positive `int32_t`. -/
theorem C19_rax_sign_extension (env : Env W) (vcpu : acrn_vcpu) (s : Sys W)
    (hE0 : 0 < env.EACCES) (hE : env.EACCES ≤ 2 ^ 31)
    (hrange : ∀ c ∈ handler_calls (emitted s (vmcall_vmexit_handler env vcpu s).2),
      -2 ^ 31 ≤ (env.hcall c s.world).1 ∧ (env.hcall c s.world).1 < 2 ^ 31) :
    ∀ v ∈ rax_writes (emitted s (vmcall_vmexit_handler env vcpu s).2),
      ∃ st : Int,
        (env.is_hypercall_from_ring0 s.world = false ∧ st = -(env.EACCES : Int) ∨
          env.is_hypercall_from_ring0 s.world = true ∧
            st = (dispatch_hypercall env vcpu (vcpu_get_gpreg env vcpu .CPU_REG_R8 s).2).1) ∧
        -2 ^ 31 ≤ st ∧ st < 2 ^ 31 ∧
        v = to_uint64 st ∧
        (v : Int) = st % 2 ^ 64 ∧
        (0 ≤ as_int64 v ↔ 0 ≤ st) ∧
        as_int64 v = st ∧
        as_int32 v = st ∧
        (st = -(env.EACCES : Int) → v = 2 ^ 64 - env.EACCES) ∧
        (st = -1 → v = 2 ^ 64 - 1) := by
  have key : ∀ st : Int, -2 ^ 31 ≤ st → st < 2 ^ 31 →
      ((to_uint64 st : Nat) : Int) = st % 2 ^ 64 ∧
      (0 ≤ as_int64 (to_uint64 st) ↔ 0 ≤ st) ∧
      as_int64 (to_uint64 st) = st ∧
      as_int32 (to_uint64 st) = st ∧
      (st = -(env.EACCES : Int) → to_uint64 st = 2 ^ 64 - env.EACCES) ∧
      (st = -1 → to_uint64 st = 2 ^ 64 - 1) := by
    intro st hlo hhi
    obtain ⟨h1, h2, h3, h4, h5⟩ := to_uint64_int32 st hlo hhi
    refine ⟨h1, by rw [h4], h4, h5, ?_, ?_⟩
    · intro hst
      have hneg : st < 0 := by omega
      have := h3 hneg
      omega
    · intro hst
      have hneg : st < 0 := by omega
      have := h3 hneg
      omega
  have hshape := dispatch_hypercall_shape env vcpu (vcpu_get_gpreg env vcpu .CPU_REG_R8 s).2
  have hnone := dispatch_hypercall_no_handler env vcpu (vcpu_get_gpreg env vcpu .CPU_REG_R8 s).2
  have hw : (vcpu_get_gpreg env vcpu .CPU_REG_R8 s).2.world = s.world := rfl
  rcases vmcall_vmexit_handler_paths env vcpu s with ⟨_, h⟩ | ⟨hr, h⟩ | ⟨hr, h⟩
  · rw [h]
    simp [rax_writes]
  · rw [h]
    intro v hv
    simp only [rax_writes, List.filterMap_cons, List.filterMap_nil, List.mem_singleton] at hv
    subst hv
    have hlo : -2 ^ 31 ≤ -(env.EACCES : Int) := by omega
    have hhi : -(env.EACCES : Int) < 2 ^ 31 := by omega
    exact ⟨_, Or.inl ⟨hr, rfl⟩, hlo, hhi, rfl, key _ hlo hhi⟩
  · rw [h] at hrange ⊢
    have hin : -2 ^ 31 ≤
          (dispatch_hypercall env vcpu (vcpu_get_gpreg env vcpu .CPU_REG_R8 s).2).1 ∧
        (dispatch_hypercall env vcpu (vcpu_get_gpreg env vcpu .CPU_REG_R8 s).2).1 <
          2 ^ 31 := by
      rcases hshape with ⟨e, _⟩ | ⟨c, e | e, hret, _⟩
      · have h0 := hnone (by simp [e, handler_calls])
        rcases h0 with h0 | h0 <;> rw [h0] <;> constructor <;> norm_num
      · rw [hret, hw]
        exact hrange c (by simp [e, handler_calls])
      · rw [hret, hw]
        exact hrange c (by simp [e, handler_calls])
    intro v hv
    have hv2 : v = to_uint64
        (dispatch_hypercall env vcpu (vcpu_get_gpreg env vcpu .CPU_REG_R8 s).2).1 := by
      rcases hshape with ⟨e, _⟩ | ⟨c, e | e, _, _⟩ <;>
        simpa [e, rax_writes] using hv
    subst hv2
    exact ⟨_, Or.inr ⟨hr, rfl⟩, hin.1, hin.2, rfl, key _ hin.1 hin.2⟩

/-- C19 at a concrete input: the SOS VM issues `HC_START_VM` for VM 0, the
handler answers `-22`, and RAX receives `2^64 - 22`, which reads back as
`-22`. -/
theorem C19_rax_sign_extension_witness :
    0 < demo_env.EACCES ∧ demo_env.EACCES ≤ 2 ^ 31 ∧
    (2 ^ 64 - 22 : Nat) ∈ rax_writes (emitted (demo_sys 0x80000012 0 0 0)
      (vmcall_vmexit_handler demo_env sos_vcpu (demo_sys 0x80000012 0 0 0)).2) ∧
    ∃ st : Int, -2 ^ 31 ≤ st ∧ st < 2 ^ 31 ∧ (2 ^ 64 - 22 : Nat) = to_uint64 st ∧
      as_int32 (2 ^ 64 - 22 : Nat) = st :=
  have h := C19_rax_sign_extension demo_env sos_vcpu (demo_sys 0x80000012 0 0 0)
    (by decide) (by decide) (by decide) (2 ^ 64 - 22) (by decide)
  ⟨by decide, by decide, by decide,
   h.elim fun st hst => ⟨st, hst.2.1, hst.2.2.1, hst.2.2.2.1, hst.2.2.2.2.2.2.2.1⟩⟩

/-! ## Two concurrent calls -/

/-- C17: two execution contexts each run `dispatch_hypercall` for a
lock-requiring operation, and their calls interleave in any schedule that
obeys the lock contract.  Then a handler call happens only while its context
holds the lock and is inside its own window, with the other context outside
its window; at no point of the schedule are both contexts inside their
windows; and of two handler calls of different contexts, the context of the
earlier one releases the lock before the later one happens, so the handler
bodies are totally ordered by the lock. -/
theorem C17_locked_handler_windows_disjoint (env : Env W) (hinj : Function.Injective env.hc_id)
    (vcpu1 vcpu2 : acrn_vcpu) (s1 s2 : Sys W) (l1 l2 : HcCase)
    (hl1 : l1 ∈ lock_ops) (hl2 : l2 ∈ lock_ops)
    (hid1 : env.get_gpreg vcpu1 .CPU_REG_R8 s1.world = env.hc_id l1)
    (hid2 : env.get_gpreg vcpu2 .CPU_REG_R8 s2.world = env.hc_id l2)
    (sched : List (Ctx × Event))
    (h1 : calls_of .first sched = emitted s1 (dispatch_hypercall env vcpu1 s1).2)
    (h2 : calls_of .second sched = emitted s2 (dispatch_hypercall env vcpu2 s2).2)
    (hadm : (lock_run none sched).isSome = true) :
    (∀ pre c h post, sched = pre ++ (c, .hcall h) :: post →
      lock_run none pre = some (some c) ∧ in_window c pre = true ∧
      ∀ d, d ≠ c → in_window d pre = false) ∧
    (∀ pre post, sched = pre ++ post →
      ¬ (in_window .first pre = true ∧ in_window .second pre = true)) ∧
    (∀ pre c h mid d k post,
      sched = pre ++ (c, .hcall h) :: (mid ++ (d, .hcall k) :: post) → d ≠ c →
      (c, Event.spinlock_release) ∈ mid) := by
  have hbr : ∀ c, bracketed false (calls_of c sched) = true := by
    intro c
    cases c
    · rw [h1]
      exact dispatch_hypercall_lock_op_bracketed env hinj vcpu1 s1 l1 hl1 hid1
    · rw [h2]
      exact dispatch_hypercall_lock_op_bracketed env hinj vcpu2 s2 l2 hl2 hid2
  have hinv0 : ∀ c : Ctx, (fun _ : Ctx => false) c = true ↔ (none : Option Ctx) = some c := by
    intro c
    simp
  have hcall : ∀ pre c h post, sched = pre ++ (c, .hcall h) :: post →
      lock_run none pre = some (some c) ∧ in_window c pre = true ∧
      ∀ d, d ≠ c → in_window d pre = false := by
    intro pre c h post hs
    subst hs
    obtain ⟨hold, hrun, hw, hb⟩ :=
      lock_invariant pre ((c, .hcall h) :: post) none (fun _ => false) hinv0 hbr hadm
    have hc := hb c
    simp only [calls_of_cons_self, bracketed, allowed, Bool.and_eq_true] at hc
    have hhold : hold = some c := (hw c).mp hc.1
    subst hhold
    refine ⟨hrun, hc.1, ?_⟩
    intro d hd
    have hnd : ¬ window_after false (calls_of d pre) = true :=
      (hw d).not.mpr (by simp [Ne.symm hd])
    simpa [in_window] using hnd
  refine ⟨hcall, ?_, ?_⟩
  · intro pre post hs
    subst hs
    obtain ⟨hold, _, hw, _⟩ :=
      lock_invariant pre post none (fun _ => false) hinv0 hbr hadm
    rintro ⟨ha, hb⟩
    have e1 := (hw .first).mp ha
    have e2 := (hw .second).mp hb
    rw [e1] at e2
    cases e2
  · intro pre c h mid d k post hs hdc
    have hopen := (hcall pre c h (mid ++ (d, .hcall k) :: post) hs).2.1
    have hs2 : sched = (pre ++ (c, .hcall h) :: mid) ++ (d, .hcall k) :: post := by
      rw [hs]
      simp
    have hclosed := (hcall _ d k post hs2).2.2 c (Ne.symm hdc)
    simp only [in_window] at hopen hclosed
    rw [calls_of_append, window_after_append, hopen, calls_of_cons_self] at hclosed
    simp only [window_after, window_step] at hclosed
    exact mem_of_mem_calls_of c _ mid (release_mem_of_window_closed _ hclosed)

/-- C17 at a concrete schedule: `HC_CREATE_VM` and `HC_DESTROY_VM` run
concurrently; when `hcall_destroy_vm` is called the second context holds the
lock and the first is outside its window. -/
theorem C17_locked_handler_windows_disjoint_witness :
    HcCase.HC_CREATE_VM ∈ lock_ops ∧ HcCase.HC_DESTROY_VM ∈ lock_ops ∧
    calls_of .first demo_schedule = emitted (demo_sys 0x80000010 0 0 0)
      (dispatch_hypercall demo_env sos_vcpu (demo_sys 0x80000010 0 0 0)).2 ∧
    calls_of .second demo_schedule = emitted (demo_sys 0x80000011 1 0 0)
      (dispatch_hypercall demo_env sos_vcpu1 (demo_sys 0x80000011 1 0 0)).2 ∧
    (lock_run none demo_schedule).isSome = true ∧
    lock_run none (demo_schedule.take 10) = some (some .second) ∧
    in_window .second (demo_schedule.take 10) = true ∧
    in_window .first (demo_schedule.take 10) = false :=
  have h := (C17_locked_handler_windows_disjoint demo_env demo_hc_id_injective sos_vcpu sos_vcpu1
    (demo_sys 0x80000010 0 0 0) (demo_sys 0x80000011 1 0 0) .HC_CREATE_VM .HC_DESTROY_VM
    (by decide) (by decide) (by decide) (by decide) demo_schedule (by decide) (by decide)
    (by decide)).1 (demo_schedule.take 10) .second (.hcall_destroy_vm 1)
    [(.second, .spinlock_release)] (by decide)
  ⟨by decide, by decide, by decide, by decide, by decide, h.1, h.2.1,
   h.2.2 .first (by decide)⟩

/-- For contrast, an operation without the lock: the handler of
`HC_SET_IRQLINE` can be called, in a schedule that obeys the lock contract,
while the other context is inside its window. -/
theorem set_irqline_handler_in_foreign_window :
    calls_of .first demo_schedule_irqline = emitted (demo_sys 0x80000010 0 0 0)
      (dispatch_hypercall demo_env sos_vcpu (demo_sys 0x80000010 0 0 0)).2 ∧
    calls_of .second demo_schedule_irqline = emitted (demo_sys 0x80000025 1 0 0)
      (dispatch_hypercall demo_env sos_vcpu1 (demo_sys 0x80000025 1 0 0)).2 ∧
    (lock_run none demo_schedule_irqline).isSome = true ∧
    demo_schedule_irqline = demo_schedule_irqline.take 7 ++
      (.second, .hcall (.hcall_set_irqline sos_vcpu1.vm 1 0)) ::
        demo_schedule_irqline.drop 8 ∧
    in_window .first (demo_schedule_irqline.take 7) = true := by
  decide

end Vmcall
